import Mathlib

/-!
Shallow embedding of the aqi-tree-planner simulation core
(src/js/map.js: WindModel and Simulation; src/unnamed/part_002: AqiApi;
src/js/trees.js: TreeSpecies) over the rationals.

Modelling conventions:
- JavaScript numbers are modelled as `ℚ`; the transcendental library
  functions (`Math.sin`, `Math.cos`, `Math.exp`, `Math.sqrt`, `Math.atan2`,
  `Math.pow (·) (-0.5)`) have no computable rational counterpart and are
  abstracted as a record `MathFns` of function parameters; theorems that
  need analytic facts about them (positivity, the Pythagorean identity)
  take those facts as hypotheses.
- `Math.PI` is the exact IEEE double closest to π, a rational constant.
- `a || b` on numbers is `jsOr` (`0` stands for the falsy values
  `0`/`null`/`undefined`); `Math.round`, `Math.max`, `Math.min` and the
  float `%` are modelled exactly on `ℚ`.
- A JS `for (v = start; v <= stop; v += step)` loop over numbers is the
  list `frange start stop step` (empty when the step is not positive,
  where the JS loop would not terminate).
- The ambient wall clock read by `WindModel.getStabilityClass`
  (`new Date().getHours()`) is made an explicit `isDay : Bool` input.
-/

namespace AqiTree

/-- JS `a || b` on numbers: `0` (the model of `0`, `null`, `undefined`) is falsy. -/
def jsOr (x y : ℚ) : ℚ := if x = 0 then y else x

/-- JS `Math.round`: round half toward positive infinity. -/
def jsRound (x : ℚ) : ℚ := (⌊x + 1/2⌋ : ℤ)

/-- Truncation toward zero, as JS `%` uses on its quotient. -/
def jsTrunc (x : ℚ) : ℚ := if 0 ≤ x then (⌊x⌋ : ℤ) else (⌈x⌉ : ℤ)

/-- JS `%` on numbers: remainder with the sign of the dividend. -/
def jsMod (a b : ℚ) : ℚ := a - b * jsTrunc (a / b)

/-- The exact value of the IEEE-754 double `Math.PI`. -/
def ratPi : ℚ := 884279719003555 / 281474976710656

/-- The transcendental `Math` functions, abstracted as parameters.
`powNegHalf x` stands for `Math.pow x (-0.5)`. -/
structure MathFns where
  sin : ℚ → ℚ
  cos : ℚ → ℚ
  exp : ℚ → ℚ
  sqrt : ℚ → ℚ
  atan2 : ℚ → ℚ → ℚ
  powNegHalf : ℚ → ℚ

/-- The JS loop `for (v = start; v <= stop; v += step)`: the values taken by `v`. -/
def frange (start stop step : ℚ) : List ℚ :=
  if 0 < step ∧ start ≤ stop then
    (List.range (((stop - start) / step).floor.toNat + 1)).map fun k : ℕ => start + (k : ℚ) * step
  else []

/-- A monitoring-station reading as consumed by `AqiApi.interpolateAQI`.
Absent optional readings (`null`) are the falsy `0`, matching how `||`
fallbacks treat them in the source. -/
structure Station where
  lat : ℚ
  lng : ℚ
  aqi : ℚ
  pm25 : ℚ
  pm10 : ℚ
deriving DecidableEq, Repr

/-- from part_002 `AqiApi.toRad`. -/
def toRad (deg : ℚ) : ℚ := deg * (ratPi / 180)

/-- from part_002 `AqiApi.haversineDistance` (kilometres). -/
def haversineDistance (fns : MathFns) (lat1 lng1 lat2 lng2 : ℚ) : ℚ :=
  let R : ℚ := 6371
  let dLat := toRad (lat2 - lat1)
  let dLng := toRad (lng2 - lng1)
  let a := fns.sin (dLat / 2) * fns.sin (dLat / 2) +
    fns.cos (toRad lat1) * fns.cos (toRad lat2) *
    fns.sin (dLng / 2) * fns.sin (dLng / 2)
  let c := 2 * fns.atan2 (fns.sqrt a) (fns.sqrt (1 - a))
  R * c

/-- The IDW weight of a station at distance `dist` km:
`dist < 0.1 ? 1000 : 1 / dist²` (part_002, interpolateAQI). -/
def idwWeight (dist : ℚ) : ℚ := if dist < 1/10 then 1000 else 1 / dist ^ 2

/-- The four mutable accumulators of the `forEach` in `interpolateAQI`. -/
structure IdwAcc where
  weightedSum : ℚ
  totalWeight : ℚ
  weightedPM25 : ℚ
  weightedPM10 : ℚ
deriving DecidableEq, Repr

/-- One iteration of the `forEach` in `interpolateAQI`. -/
def idwStep (fns : MathFns) (lat lng : ℚ) (acc : IdwAcc) (s : Station) : IdwAcc :=
  let distance := haversineDistance fns lat lng s.lat s.lng
  let weight := idwWeight distance
  { weightedSum := acc.weightedSum + jsOr s.aqi s.pm25 * weight
    totalWeight := acc.totalWeight + weight
    weightedPM25 := acc.weightedPM25 + jsOr s.pm25 s.aqi * weight
    weightedPM10 := acc.weightedPM10 + jsOr s.pm10 (s.aqi * (13/10)) * weight }

/-- Result of `interpolateAQI`; `pm10` is `none` in the empty-station default,
whose object literal has no `pm10` property. -/
structure InterpResult where
  aqi : ℚ
  pm25 : ℚ
  pm10 : Option ℚ
deriving DecidableEq, Repr

/-- from part_002 `AqiApi.interpolateAQI`. -/
def interpolateAQI (fns : MathFns) (lat lng : ℚ) (stationData : List Station) :
    InterpResult :=
  if stationData = [] then { aqi := 200, pm25 := 200, pm10 := none }
  else
    let acc := stationData.foldl (idwStep fns lat lng) ⟨0, 0, 0, 0⟩
    { aqi := jsRound (acc.weightedSum / acc.totalWeight)
      pm25 := jsRound (acc.weightedPM25 / acc.totalWeight)
      pm10 := some (jsRound (acc.weightedPM10 / acc.totalWeight)) }

/-- City bounding rectangle (part_002 `AqiApi.getCityBounds`). -/
structure Bounds where
  north : ℚ
  south : ℚ
  east : ℚ
  west : ℚ
deriving DecidableEq, Repr

/-- from part_002 `AqiApi.getCityBounds`; unknown cities fall back to lahore. -/
def getCityBounds (city : String) : Bounds :=
  if city = "lahore" then ⟨31.65, 31.35, 74.55, 74.15⟩
  else if city = "delhi" then ⟨28.85, 28.40, 77.45, 76.85⟩
  else ⟨31.65, 31.35, 74.55, 74.15⟩

/-- from part_002 `AqiApi.getAQICategory`. -/
structure AQICategory where
  label : String
  color : String
  textColor : String
deriving DecidableEq, Repr

/-- from part_002 `AqiApi.getAQICategory`. -/
def getAQICategory (aqi : ℚ) : AQICategory :=
  if aqi ≤ 50 then ⟨"Good", "#00e400", "#000"⟩
  else if aqi ≤ 100 then ⟨"Moderate", "#ffff00", "#000"⟩
  else if aqi ≤ 150 then ⟨"Unhealthy for Sensitive", "#ff7e00", "#000"⟩
  else if aqi ≤ 200 then ⟨"Unhealthy", "#ff0000", "#fff"⟩
  else if aqi ≤ 300 then ⟨"Very Unhealthy", "#8f3f97", "#fff"⟩
  else ⟨"Hazardous", "#7e0023", "#fff"⟩

/-- A geographic coordinate pair `{ lat, lng }`. -/
structure LatLng where
  lat : ℚ
  lng : ℚ
deriving DecidableEq, Repr

/-- Wind conditions `{ speed, direction }` as used by the core; absent
values are the falsy `0` and take the source's `|| default` fallbacks. -/
structure WindData where
  speed : ℚ
  direction : ℚ
deriving DecidableEq, Repr

/-- Pasquill stability classes A-F (map.js `WindModel.getStabilityClass`). -/
inductive Stability
  | A | B | C | D | E | F
deriving DecidableEq, Repr

/-- from map.js `WindModel.getStabilityClass`.  The source reads
`conditions.windSpeed || 10` and, when `timeOfDay` is not supplied (it never
is in this pipeline), decides day vs night from the ambient wall clock
`new Date().getHours()`; that hidden clock input is the explicit `isDay`. -/
def getStabilityClass (isDay : Bool) (windSpeed : ℚ) : Stability :=
  let ws := jsOr windSpeed 10
  if isDay then
    if ws < 2 then .A
    else if ws < 5 then .B
    else if ws < 6 then .C
    else .D
  else
    if ws < 3 then .F
    else if ws < 5 then .E
    else .D

/-- The empirical a/b pairs of `WindModel.getDispersionCoefficients`. -/
structure DispCoef where
  ay : ℚ
  yb : ℚ
  az : ℚ
  zb : ℚ
deriving DecidableEq, Repr

/-- The coefficient table of `WindModel.getDispersionCoefficients`. -/
def coefficients : Stability → DispCoef
  | .A => ⟨0.22, 0.0001, 0.20, 0⟩
  | .B => ⟨0.16, 0.0001, 0.12, 0⟩
  | .C => ⟨0.11, 0.0001, 0.08, 0.0002⟩
  | .D => ⟨0.08, 0.0001, 0.06, 0.0015⟩
  | .E => ⟨0.06, 0.0001, 0.03, 0.0003⟩
  | .F => ⟨0.04, 0.0001, 0.016, 0.0003⟩

/-- The guarded distance `x = Math.max(distance, 1)` fed to the
dispersion-coefficient formulas. -/
def dispersionX (distance : ℚ) : ℚ := max distance 1

/-- from map.js `WindModel.getDispersionCoefficients`: returns (sigmaY, sigmaZ);
`sigma = a * x * (1 + b * x) ^ (-0.5)` with `x = max(distance, 1)`. -/
def getDispersionCoefficients (fns : MathFns) (stability : Stability)
    (distance : ℚ) : ℚ × ℚ :=
  let coef := coefficients stability
  let x := dispersionX distance
  let sigmaY := coef.ay * x * fns.powNegHalf (1 + coef.yb * x)
  let sigmaZ := coef.az * x * fns.powNegHalf (1 + coef.zb * x)
  (sigmaY, sigmaZ)

/-- from map.js `WindModel.calculateZonePolygon`: the four trapezoid
vertices `[nearLeft, farLeft, farRight, nearRight]`. -/
def calculateZonePolygon (fns : MathFns) (origin : LatLng)
    (direction length nearWidth farWidth : ℚ) : List LatLng :=
  let metersPerDegLat : ℚ := 111320
  let metersPerDegLng : ℚ := metersPerDegLat * fns.cos (origin.lat * ratPi / 180)
  let perpDir := direction + ratPi / 2
  let nearLeft : LatLng :=
    ⟨origin.lat + nearWidth * fns.cos perpDir / metersPerDegLat,
     origin.lng + nearWidth * fns.sin perpDir / metersPerDegLng⟩
  let nearRight : LatLng :=
    ⟨origin.lat - nearWidth * fns.cos perpDir / metersPerDegLat,
     origin.lng - nearWidth * fns.sin perpDir / metersPerDegLng⟩
  let farCenter : LatLng :=
    ⟨origin.lat + length * fns.cos direction / metersPerDegLat,
     origin.lng + length * fns.sin direction / metersPerDegLng⟩
  let farLeft : LatLng :=
    ⟨farCenter.lat + farWidth * fns.cos perpDir / metersPerDegLat,
     farCenter.lng + farWidth * fns.sin perpDir / metersPerDegLng⟩
  let farRight : LatLng :=
    ⟨farCenter.lat - farWidth * fns.cos perpDir / metersPerDegLat,
     farCenter.lng - farWidth * fns.sin perpDir / metersPerDegLng⟩
  [nearLeft, farLeft, farRight, nearRight]

/-- from map.js `WindModel.calculateDownwindZone`. -/
def calculateDownwindZone (fns : MathFns) (treeLocation : LatLng)
    (canopyRadius : ℚ) (windData : WindData) : List LatLng :=
  let windSpeed := jsOr windData.speed 10
  let windDirection := jsOr windData.direction 0
  let effectiveDistance := canopyRadius * 10 * (1 + windSpeed / 30)
  let nearWidth := canopyRadius * 2
  let farWidth := canopyRadius * 0.5
  let downwindRad := jsMod (windDirection + 180) 360 * ratPi / 180
  calculateZonePolygon fns treeLocation downwindRad effectiveDistance nearWidth farWidth

/-- Seasonal efficiency multipliers of a species (trees.js). -/
structure SeasonalEfficiency where
  winter : ℚ
  summer : ℚ
  monsoon : ℚ
deriving DecidableEq, Repr

/-- Per-species cost table (trees.js). -/
structure SpeciesCosts where
  sapling : ℚ
  planting : ℚ
  annualMaintenance : ℚ
deriving DecidableEq, Repr

/-- The fields of a trees.js species record that the simulation core reads
(the source records carry further display-only fields). -/
structure Species where
  id : String
  pm25Absorption : ℚ
  co2Sequestration : ℚ
  leafAreaIndex : ℚ
  leafAreaTotal : ℚ
  canopyDiameter : ℚ
  seasonalEfficiency : SeasonalEfficiency
  costs : SpeciesCosts
deriving DecidableEq, Repr

/-- `species.seasonalEfficiency[season]`: unknown keys are `undefined`,
modelled as the falsy `0` consumed by the `|| 1.0` fallback. -/
def seasonalFor (se : SeasonalEfficiency) (season : String) : ℚ :=
  if season = "winter" then se.winter
  else if season = "summer" then se.summer
  else if season = "monsoon" then se.monsoon
  else 0

/-- The trees.js species table, restricted to the fields the core reads. -/
def speciesTable : List Species :=
  [⟨"neem", 28.4, 21.7, 5.2, 285, 12, ⟨0.85, 1.0, 0.95⟩, ⟨800, 500, 300⟩⟩,
   ⟨"safeda", 22.1, 28.4, 3.8, 420, 8, ⟨0.90, 1.0, 0.85⟩, ⟨400, 400, 200⟩⟩,
   ⟨"cookPine", 15.3, 15.2, 4.5, 180, 4, ⟨1.0, 0.90, 0.95⟩, ⟨1500, 600, 400⟩⟩,
   ⟨"deodarCedar", 31.2, 24.8, 6.8, 380, 15, ⟨1.0, 0.85, 0.95⟩, ⟨2000, 800, 500⟩⟩,
   ⟨"peepal", 35.8, 32.5, 7.2, 520, 20, ⟨0.7, 1.0, 0.95⟩, ⟨600, 600, 350⟩⟩,
   ⟨"banyan", 38.5, 35.2, 8.5, 680, 30, ⟨0.9, 1.0, 0.95⟩, ⟨1000, 800, 400⟩⟩,
   ⟨"jamun", 26.3, 22.4, 5.8, 320, 12, ⟨0.95, 1.0, 0.9⟩, ⟨700, 500, 300⟩⟩,
   ⟨"arjun", 29.6, 26.8, 6.2, 380, 14, ⟨0.75, 1.0, 0.95⟩, ⟨900, 600, 350⟩⟩,
   ⟨"amaltas", 18.4, 16.5, 4.2, 180, 10, ⟨0.6, 1.0, 0.85⟩, ⟨500, 400, 250⟩⟩,
   ⟨"kachnar", 16.8, 14.2, 3.8, 150, 8, ⟨0.5, 1.0, 0.9⟩, ⟨450, 350, 200⟩⟩,
   ⟨"sheesham", 24.5, 28.6, 5.0, 280, 12, ⟨0.7, 1.0, 0.95⟩, ⟨600, 500, 250⟩⟩,
   ⟨"pilkhan", 32.4, 30.5, 6.8, 450, 18, ⟨0.65, 1.0, 0.95⟩, ⟨700, 600, 350⟩⟩]

/-- from trees.js `TreeSpecies.getById`: `this.species[id] || null`. -/
def getById (id : String) : Option Species :=
  speciesTable.find? fun s => s.id = id

/-- from trees.js `TreeSpecies.getDepositionVelocity`. -/
def getDepositionVelocity (speciesId : String) : ℚ :=
  match getById speciesId with
  | none => 0.002
  | some species => 0.002 * (species.leafAreaIndex / 5.0)

/-- from trees.js `TreeSpecies.calculateAnnualCO2` over `(speciesId, count)` pairs. -/
def calculateAnnualCO2 (trees : List (String × Nat)) : ℚ :=
  trees.foldl
    (fun total t =>
      match getById t.1 with
      | none => total
      | some species => total + species.co2Sequestration * (t.2 : ℚ) / 1000)
    0

/-- Cost breakdown returned by trees.js `TreeSpecies.calculateCosts`. -/
structure Costs where
  saplings : ℚ
  planting : ℚ
  maintenance : ℚ
  total : ℚ
deriving DecidableEq, Repr

/-- from trees.js `TreeSpecies.calculateCosts`. -/
def calculateCosts (trees : List (String × Nat)) : Costs :=
  let acc := trees.foldl
    (fun (acc : ℚ × ℚ × ℚ) t =>
      match getById t.1 with
      | none => acc
      | some species =>
          (acc.1 + species.costs.sapling * (t.2 : ℚ),
           acc.2.1 + species.costs.planting * (t.2 : ℚ),
           acc.2.2 + species.costs.annualMaintenance * (t.2 : ℚ)))
    (0, 0, 0)
  ⟨acc.1, acc.2.1, acc.2.2, acc.1 + acc.2.1 + acc.2.2⟩

/-- A placed tree as the core receives it: identity, coordinate, species id. -/
structure Tree where
  id : Nat
  lat : ℚ
  lng : ℚ
  speciesId : String
deriving DecidableEq, Repr

/-- The per-run, per-tree record built by `Simulation.calculateTreeEffects`
(`{ ...tree, species, baseRemoval, depositionVelocity, leafArea,
effectiveRadius, seasonalFactor }`). -/
structure TreeEffect where
  id : Nat
  lat : ℚ
  lng : ℚ
  speciesId : String
  species : Species
  baseRemoval : ℚ
  depositionVelocity : ℚ
  leafArea : ℚ
  effectiveRadius : ℚ
  seasonalFactor : ℚ
deriving DecidableEq, Repr

/-- The body of the `trees.map` in `Simulation.calculateTreeEffects`, for a
tree whose species id resolved. -/
def mkTreeEffect (tree : Tree) (season : String) (species : Species) : TreeEffect :=
  let baseRemoval := species.pm25Absorption
  let seasonalFactor := jsOr (seasonalFor species.seasonalEfficiency season) 1.0
  let vd := getDepositionVelocity tree.speciesId
  { id := tree.id, lat := tree.lat, lng := tree.lng, speciesId := tree.speciesId
    species := species
    baseRemoval := baseRemoval * seasonalFactor
    depositionVelocity := vd
    leafArea := species.leafAreaTotal
    effectiveRadius := species.canopyDiameter / 2
    seasonalFactor := seasonalFactor }

/-- from map.js `Simulation.calculateTreeEffects`: map each tree to its
effect record (`null` when the species id does not resolve), then
`.filter(t => t !== null)`. -/
def calculateTreeEffects (trees : List Tree) (season : String) : List TreeEffect :=
  (trees.map fun tree => (getById tree.speciesId).map (mkTreeEffect tree season)).filterMap id

/-- A grid cell of a pollution field.  `reduction` is `none` until the
dispersion stage attaches the percentage. -/
structure GridCell where
  lat : ℚ
  lng : ℚ
  pm25 : ℚ
  pm10 : ℚ
  reduction : Option ℚ := none
deriving DecidableEq, Repr

/-- from map.js `Simulation.calculateBaselineField` (GRID_RESOLUTION = 100 m). -/
def calculateBaselineField (fns : MathFns) (city : String)
    (stationData : List Station) : List (List GridCell) :=
  let bounds := getCityBounds city
  let gridResolution : ℚ := 100
  let latStep := gridResolution / 111320
  let lngStep := gridResolution / (111320 * fns.cos (bounds.north * ratPi / 180))
  (frange bounds.south bounds.north latStep).map fun lat =>
    (frange bounds.west bounds.east lngStep).map fun lng =>
      let pm25 := (interpolateAQI fns lat lng stationData).pm25
      { lat := lat, lng := lng, pm25 := pm25, pm10 := pm25 * 1.4, reduction := none }

/-- `dx` of `Simulation.calculateTreeInfluence`: east-west offset in metres. -/
def treeCellDx (fns : MathFns) (cell : GridCell) (tree : TreeEffect) : ℚ :=
  (cell.lng - tree.lng) * 111320 * fns.cos (cell.lat * ratPi / 180)

/-- `dy` of `Simulation.calculateTreeInfluence`: north-south offset in metres. -/
def treeCellDy (cell : GridCell) (tree : TreeEffect) : ℚ :=
  (cell.lat - tree.lat) * 111320

/-- `distance` of `Simulation.calculateTreeInfluence`. -/
def treeCellDistance (fns : MathFns) (cell : GridCell) (tree : TreeEffect) : ℚ :=
  fns.sqrt (treeCellDx fns cell tree * treeCellDx fns cell tree +
    treeCellDy cell tree * treeCellDy cell tree)

/-- `downwindDist` of `Simulation.calculateTreeInfluence` (positive means the
cell is downwind of the tree). -/
def downwindDist (fns : MathFns) (cell : GridCell) (tree : TreeEffect)
    (windRad : ℚ) : ℚ :=
  treeCellDx fns cell tree * fns.sin windRad + treeCellDy cell tree * fns.cos windRad

/-- from map.js `Simulation.calculateTreeInfluence`. -/
def calculateTreeInfluence (fns : MathFns) (cell : GridCell) (tree : TreeEffect)
    (windSpeed windRad : ℚ) (stability : Stability) : ℚ :=
  let dx := treeCellDx fns cell tree
  let dy := treeCellDy cell tree
  let distance := treeCellDistance fns cell tree
  if distance ≤ tree.effectiveRadius then tree.baseRemoval * 0.3
  else
    let downwind := downwindDist fns cell tree windRad
    if downwind < 0 then 0
    else
      let crosswindDist := |dx * fns.cos windRad - dy * fns.sin windRad|
      let sigmaY := (getDispersionCoefficients fns stability downwind).1
      let q := tree.baseRemoval * 1000
      let u := windSpeed / 3.6
      let expY := fns.exp (-(crosswindDist ^ 2) / (2 * (sigmaY + 1) ^ 2))
      let reduction := q / (2 * ratPi * u * (sigmaY + 1)) * expY
      let distanceFactor := fns.exp (-distance / 500)
      reduction * distanceFactor * 0.001

/-- The guarded wind speed of `Simulation.applyDispersionModel`:
`Math.max(windData.speed || 10, 1)`. -/
def effectiveWindSpeed (speed : ℚ) : ℚ := max (jsOr speed 10) 1

/-- The downwind bearing in radians used by `Simulation.applyDispersionModel`:
`((windData.direction || 0) + 180) % 360` converted to radians. -/
def windRadOf (windData : WindData) : ℚ :=
  jsMod (jsOr windData.direction 0 + 180) 360 * ratPi / 180

/-- The per-cell body of the double loop in `Simulation.applyDispersionModel`. -/
def projectCell (fns : MathFns) (windSpeed windRad : ℚ) (stability : Stability)
    (treeEffects : List TreeEffect) (cell : GridCell) : GridCell :=
  let totalReduction :=
    (treeEffects.map fun tree =>
      calculateTreeInfluence fns cell tree windSpeed windRad stability).sum
  let reductionFactor := 1 - min (totalReduction / cell.pm25) 0.6
  let pm25 := max (cell.pm25 * reductionFactor) 10
  { cell with
      pm25 := pm25
      pm10 := pm25 * 1.4
      reduction := some ((1 - reductionFactor) * 100) }

/-- from map.js `Simulation.applyDispersionModel`.  The source first takes a
deep copy (`JSON.parse(JSON.stringify(baselineField))`) and mutates only the
copy, so the input field is untouched; in this pure embedding the copy is the
returned field.  `isDay` is the ambient clock input of `getStabilityClass`. -/
def applyDispersionModel (fns : MathFns) (isDay : Bool)
    (baselineField : List (List GridCell)) (treeEffects : List TreeEffect)
    (windData : WindData) : List (List GridCell) :=
  let windSpeed := effectiveWindSpeed windData.speed
  let windRad := windRadOf windData
  let stability := getStabilityClass isDay windSpeed
  baselineField.map fun row =>
    row.map (projectCell fns windSpeed windRad stability treeEffects)

/-- An entry of the list built by `Simulation.calculateImpactZones`. -/
structure ImpactZone where
  treeId : Nat
  lat : ℚ
  lng : ℚ
  canopyRadius : ℚ
  impactZone : List LatLng
  reduction : ℚ
  speciesId : String
deriving DecidableEq, Repr

/-- from map.js `Simulation.calculateImpactZones` (its `baseRadius` and
`downwindExtension` locals are dead code in the source). -/
def calculateImpactZones (fns : MathFns) (windData : WindData)
    (treeEffects : List TreeEffect) : List ImpactZone :=
  treeEffects.map fun tree =>
    let zone := calculateDownwindZone fns ⟨tree.lat, tree.lng⟩ tree.effectiveRadius windData
    { treeId := tree.id, lat := tree.lat, lng := tree.lng
      canopyRadius := tree.effectiveRadius, impactZone := zone
      reduction := tree.baseRemoval, speciesId := tree.speciesId }

/-- Insertion-ordered species counting, mirroring the plain-object
`speciesCount[tree.speciesId] = (speciesCount[tree.speciesId] || 0) + 1`. -/
def bumpCount (l : List (String × Nat)) (k : String) : List (String × Nat) :=
  match l with
  | [] => [(k, 1)]
  | (k', n) :: rest =>
      if k' = k then (k', n + 1) :: rest else (k', n) :: bumpCount rest k

/-- The `baselineSum`/`projectedSum`/`cellCount` loop of
`Simulation.calculateSummaryStats`.  The source iterates `baseline`'s index
ranges, reading `baseline[i][j].pm25` and `projected[i][j].pm25` and counting
cells; on the same-shaped pair of fields the pipeline always passes (the
projected field is a cell-for-cell map of the baseline), this equals the
flattened sums and the flattened cell count used here. -/
def summarySums (baseline projected : List (List GridCell)) : ℚ × ℚ × Nat :=
  ((baseline.flatten.map (fun c => c.pm25)).sum,
    (projected.flatten.map (fun c => c.pm25)).sum,
    baseline.flatten.length)

/-- The summary KPI object of `Simulation.calculateSummaryStats`. -/
structure Summary where
  baselineAvgPM25 : ℚ
  baselineCategory : AQICategory
  projectedAvgPM25 : ℚ
  projectedCategory : AQICategory
  reductionAbsolute : ℚ
  reductionPercentage : ℚ
  treesTotal : Nat
  treesBySpecies : List (String × Nat)
  coverageAreaSqKm : ℚ
  populationBenefited : ℚ
  co2Tonnes : ℚ
  costs : Costs
  currency : String
deriving DecidableEq, Repr

/-- from map.js `Simulation.calculateSummaryStats`. -/
def calculateSummaryStats (baseline projected : List (List GridCell))
    (trees : List Tree) (treeEffects : List TreeEffect) (city : String) : Summary :=
  let sums := summarySums baseline projected
  let avgBaseline := sums.1 / (sums.2.2 : ℚ)
  let avgProjected := sums.2.1 / (sums.2.2 : ℚ)
  let reduction := (avgBaseline - avgProjected) / avgBaseline * 100
  let speciesCount := trees.foldl (fun l t => bumpCount l t.speciesId) []
  let totalCoverage :=
    (treeEffects.foldl (fun sum tree => sum + ratPi * tree.effectiveRadius ^ 2) 0) / 1000000
  let co2 := calculateAnnualCO2 speciesCount
  let costs := calculateCosts speciesCount
  let cityDensity : ℚ := if city = "lahore" then 6300 else 11320
  let populationBenefited := jsRound (totalCoverage * cityDensity * 2)
  { baselineAvgPM25 := jsRound avgBaseline
    baselineCategory := getAQICategory avgBaseline
    projectedAvgPM25 := jsRound avgProjected
    projectedCategory := getAQICategory avgProjected
    reductionAbsolute := jsRound (avgBaseline - avgProjected)
    reductionPercentage := jsRound (reduction * 10) / 10
    treesTotal := trees.length
    treesBySpecies := speciesCount
    coverageAreaSqKm := jsRound (totalCoverage * 100) / 100
    populationBenefited := populationBenefited
    co2Tonnes := jsRound (co2 * 10) / 10
    costs := costs
    currency := if city = "lahore" then "PKR" else "INR" }

/-- The parameter object of `Simulation.runSimulation`. -/
structure SimulationParams where
  trees : List Tree
  city : String
  stationData : List Station
  windData : WindData
  season : String
deriving DecidableEq, Repr

/-- The result object of `Simulation.runSimulation` (its wall-clock
`timestamp` field is outside this numeric model). -/
structure SimulationResult where
  baseline : List (List GridCell)
  projected : List (List GridCell)
  impactZones : List ImpactZone
  summary : Summary
  trees : List Tree
deriving DecidableEq, Repr

/-- from map.js `Simulation.runSimulation`: the five sequential stages.
Progress events are fire-and-forget UI notifications and carry no data
dependency.  `isDay` is the ambient clock input reaching
`getStabilityClass` through `applyDispersionModel`. -/
def runSimulation (fns : MathFns) (isDay : Bool) (params : SimulationParams) :
    SimulationResult :=
  let baselineField := calculateBaselineField fns params.city params.stationData
  let treeEffects := calculateTreeEffects params.trees params.season
  let dispersionField := applyDispersionModel fns isDay baselineField treeEffects params.windData
  let impactZones := calculateImpactZones fns params.windData treeEffects
  let summary := calculateSummaryStats baselineField dispersionField params.trees treeEffects params.city
  { baseline := baselineField, projected := dispersionField
    impactZones := impactZones, summary := summary, trees := params.trees }

/-! ### Helper lemmas -/

/-- A mapped list is pointwise related to its source. -/
lemma forall₂_map_self {α β : Type} (R : α → β → Prop) (f : α → β) (l : List α)
    (h : ∀ a ∈ l, R a (f a)) : List.Forall₂ R l (l.map f) := by
  rw [List.forall₂_map_right_iff, List.forall₂_same]
  exact h

/-- The reduction factor `1 - min (t / pm) 0.6` is at least `0.4`. -/
lemma reductionFactor_ge (t pm : ℚ) : (2 : ℚ)/5 ≤ 1 - min (t / pm) 0.6 := by
  have h : min (t / pm) 0.6 ≤ 0.6 := min_le_right _ _
  set m := min (t / pm) 0.6 with hm
  have h6 : (0.6 : ℚ) = 3/5 := by norm_num
  rw [h6] at h
  linarith

/-- Per-cell facts about `projectCell`: the attached percentage is at most 60,
the new concentration is at least the floor 10 and the removed amount is at
most 60% of the incoming value. -/
lemma projectCell_bounds (fns : MathFns) (windSpeed windRad : ℚ)
    (stability : Stability) (effects : List TreeEffect) (b : GridCell) :
    (∀ r ∈ (projectCell fns windSpeed windRad stability effects b).reduction, r ≤ 60) ∧
      10 ≤ (projectCell fns windSpeed windRad stability effects b).pm25 ∧
      b.pm25 - (projectCell fns windSpeed windRad stability effects b).pm25 ≤
        (6 : ℚ)/10 * b.pm25 := by
  unfold projectCell
  set t := (effects.map fun tree =>
    calculateTreeInfluence fns b tree windSpeed windRad stability).sum with ht
  refine ⟨?_, le_max_right _ _, ?_⟩
  · intro r hr
    simp only [Option.mem_def, Option.some.injEq] at hr
    have h : min (t / b.pm25) 0.6 ≤ 0.6 := min_le_right _ _
    set m := min (t / b.pm25) 0.6 with hm
    have h6 : (0.6 : ℚ) = 3/5 := by norm_num
    rw [h6] at h
    rw [← hr]
    linarith
  · have hf : (2 : ℚ)/5 ≤ 1 - min (t / b.pm25) 0.6 := reductionFactor_ge t b.pm25
    have hmax : (10 : ℚ) ≤ max (b.pm25 * (1 - min (t / b.pm25) 0.6)) 10 := le_max_right _ _
    have hmax' : b.pm25 * (1 - min (t / b.pm25) 0.6) ≤
        max (b.pm25 * (1 - min (t / b.pm25) 0.6)) 10 := le_max_left _ _
    rcases le_total b.pm25 25 with hb | hb
    · nlinarith
    · nlinarith

/-- C1: for every baseline field, tree-effect list and wind input, each
projected cell keeps its attached reduction percentage at or below 60, loses
at most 60% of the incoming cell value, and never drops below the floor
constant 10 (so it is never zero or negative). -/
theorem C1_reduction_cap_and_floor (fns : MathFns) (isDay : Bool)
    (field : List (List GridCell)) (effects : List TreeEffect) (wind : WindData) :
    List.Forall₂
      (List.Forall₂ fun b p =>
        (∀ r ∈ p.reduction, r ≤ 60) ∧ 10 ≤ p.pm25 ∧ b.pm25 - p.pm25 ≤ (6 : ℚ)/10 * b.pm25)
      field (applyDispersionModel fns isDay field effects wind) := by
  unfold applyDispersionModel
  refine forall₂_map_self _ _ _ fun row _ => forall₂_map_self _ _ _ fun b _ => ?_
  exact projectCell_bounds fns _ _ _ effects b

/-- C9: the dispersion-coefficient formulas receive a downwind distance
floored at 1 m, the dispersion stage divides by a wind speed floored at
1 km/h, and the derived plume divisor `u = windSpeed / 3.6` is positive, so
zero distance and zero wind speed never produce a zero divisor. -/
theorem C9_degeneracy_guards (d s : ℚ) :
    1 ≤ dispersionX d ∧ 1 ≤ effectiveWindSpeed s ∧ 0 < effectiveWindSpeed s / 3.6 := by
  refine ⟨le_max_right _ _, le_max_right _ _, ?_⟩
  have h : (1 : ℚ) ≤ effectiveWindSpeed s := le_max_right _ _
  positivity

/-- C10: the dispersion stage only rewrites `pm25`, `pm10` and the attached
`reduction` of a deep copy: the projected field has the same row count, the
same cells per row and the same coordinate in every cell as the baseline
field it was given (which, being deep-copied in the source, is itself left
untouched). -/
theorem C10_frame_preservation (fns : MathFns) (isDay : Bool)
    (field : List (List GridCell)) (effects : List TreeEffect) (wind : WindData) :
    (applyDispersionModel fns isDay field effects wind).length = field.length ∧
      List.Forall₂
        (fun row prow => prow.length = row.length ∧
          List.Forall₂ (fun b p => p.lat = b.lat ∧ p.lng = b.lng) row prow)
        field (applyDispersionModel fns isDay field effects wind) := by
  constructor
  · unfold applyDispersionModel
    exact List.length_map _ _
  · unfold applyDispersionModel
    refine forall₂_map_self _ _ _ fun row _ => ⟨List.length_map _ _, ?_⟩
    refine forall₂_map_self _ _ _ fun b _ => ?_
    unfold projectCell
    exact ⟨rfl, rfl⟩

/-- A filterMap keeps exactly the elements whose image is `some`. -/
lemma length_filterMap_eq_length_filter {α β : Type} (f : α → Option β) (l : List α) :
    (l.filterMap f).length = (l.filter fun a => (f a).isSome).length := by
  induction l with
  | nil => rfl
  | cons a l ih =>
      rw [List.filterMap_cons, List.filter_cons]
      cases h : f a with
      | none => simpa [h] using ih
      | some b => simpa [h] using ih

/-- C8: `calculateTreeEffects` yields exactly one effect record per tree
whose species id resolves in the catalog, silently dropping every tree with
an unrecognized species id (it is a total function, no error path), and each
record preserves the originating tree's identity, coordinate and species id. -/
theorem C8_tree_effects_drop_unknown (trees : List Tree) (season : String) :
    calculateTreeEffects trees season
        = trees.filterMap (fun t => (getById t.speciesId).map (mkTreeEffect t season)) ∧
      (calculateTreeEffects trees season).length
        = (trees.filter fun t => (getById t.speciesId).isSome).length ∧
      ∀ e ∈ calculateTreeEffects trees season,
        ∃ t ∈ trees, getById t.speciesId = some e.species ∧
          e.id = t.id ∧ e.lat = t.lat ∧ e.lng = t.lng ∧ e.speciesId = t.speciesId := by
  have heq : calculateTreeEffects trees season
      = trees.filterMap fun t => (getById t.speciesId).map (mkTreeEffect t season) := by
    unfold calculateTreeEffects
    rw [List.filterMap_map]
    rfl
  refine ⟨heq, ?_, ?_⟩
  · rw [heq, length_filterMap_eq_length_filter]
    congr 1
    apply List.filter_congr
    intro t _
    cases h : getById t.speciesId <;> simp [h]
  · intro e he
    rw [heq] at he
    rcases List.mem_filterMap.mp he with ⟨t, ht, hfe⟩
    cases h : getById t.speciesId with
    | none => rw [h] at hfe; exact Option.noConfusion hfe
    | some sp =>
        rw [h] at hfe
        replace hfe : mkTreeEffect t season sp = e := Option.some.inj hfe
        refine ⟨t, ht, ?_, ?_⟩
        · rw [h, ← hfe]
          rfl
        · rw [← hfe]
          exact ⟨rfl, rfl, rfl, rfl⟩

/-- A tree's influence vanishes at a cell that is outside its canopy radius
and strictly upwind of it. -/
lemma calculateTreeInfluence_eq_zero (fns : MathFns) (cell : GridCell)
    (tree : TreeEffect) (windSpeed windRad : ℚ) (stability : Stability)
    (hout : tree.effectiveRadius < treeCellDistance fns cell tree)
    (hup : downwindDist fns cell tree windRad < 0) :
    calculateTreeInfluence fns cell tree windSpeed windRad stability = 0 := by
  unfold calculateTreeInfluence
  simp only []
  rw [if_neg (not_le.mpr hout), if_pos hup]

/-- A cell that receives zero total tree contribution keeps its pm25, gets
pm10 recomputed from it, and gets reduction 0 attached. -/
lemma projectCell_of_no_influence (fns : MathFns) (windSpeed windRad : ℚ)
    (stability : Stability) (effects : List TreeEffect) (b : GridCell)
    (hfloor : 10 ≤ b.pm25)
    (hzero : ∀ t ∈ effects,
      calculateTreeInfluence fns b t windSpeed windRad stability = 0) :
    (projectCell fns windSpeed windRad stability effects b).pm25 = b.pm25 ∧
      (projectCell fns windSpeed windRad stability effects b).pm10 = b.pm25 * 1.4 ∧
      (projectCell fns windSpeed windRad stability effects b).reduction = some 0 := by
  unfold projectCell
  have hsum : (effects.map fun tree =>
      calculateTreeInfluence fns b tree windSpeed windRad stability).sum = 0 := by
    apply List.sum_eq_zero
    intro x hx
    rcases List.mem_map.mp hx with ⟨t, ht, rfl⟩
    exact hzero t ht
  rw [hsum]
  have hmin : min ((0 : ℚ) / b.pm25) 0.6 = 0 := by
    rw [zero_div]
    exact min_eq_left (by norm_num)
  simp only [hmin]
  have hmax : max (b.pm25 * (1 - 0)) 10 = b.pm25 := by
    rw [show b.pm25 * ((1 : ℚ) - 0) = b.pm25 by ring]
    exact max_eq_left hfloor
  refine ⟨?_, ?_, ?_⟩
  · simpa using hmax
  · simpa using congrArg (· * (1.4 : ℚ)) hmax
  · norm_num

unseal Rat.add Rat.sub Rat.mul Rat.inv Rat.ofScientific in
/-- C2 counterexample: with zero trees and a baseline cell whose pm25 is 5
(below the floor 10), the projected field is not the baseline field — the
cell is clamped up to the floor 10 instead of keeping its value 5. -/
theorem C2_counterexample :
    (((applyDispersionModel
          ⟨fun _ => 0, fun _ => 1, fun _ => 1, fun x => x, fun _ _ => 0, fun _ => 1⟩
          true [[⟨0, 0, 5, 7, none⟩]] [] ⟨10, 0⟩).headD []).headD
        ⟨0, 0, 0, 0, none⟩).pm25 ≠ 5 ∧
      applyDispersionModel
          ⟨fun _ => 0, fun _ => 1, fun _ => 1, fun x => x, fun _ _ => 0, fun _ => 1⟩
          true [[⟨0, 0, 5, 7, none⟩]] [] ⟨10, 0⟩
        ≠ [[⟨0, 0, 5, 7, none⟩]] := by
  constructor
  · decide
  · decide

/-- C2 (amended): provided every baseline cell already sits at or above the
floor 10, a cell that is strictly upwind of every tree (negative downwind
component) and outside every tree's canopy radius keeps exactly its baseline
pm25 and gets reduction 0 attached (pm10 is recomputed as 1.4 × pm25, which
is the baseline pm10 whenever the field came from `calculateBaselineField`);
with zero trees the hypothesis on trees is vacuous, so this holds for the
whole field.  Under the floor, the projected value is clamped up to 10. -/
theorem C2_upwind_neutrality (fns : MathFns) (isDay : Bool)
    (field : List (List GridCell)) (effects : List TreeEffect) (wind : WindData)
    (hfloor : ∀ row ∈ field, ∀ c ∈ row, 10 ≤ c.pm25)
    (haway : ∀ row ∈ field, ∀ c ∈ row, ∀ t ∈ effects,
      t.effectiveRadius < treeCellDistance fns c t ∧
        downwindDist fns c t (windRadOf wind) < 0) :
    List.Forall₂
      (List.Forall₂ fun b p =>
        p.pm25 = b.pm25 ∧ p.pm10 = b.pm25 * 1.4 ∧ p.reduction = some 0)
      field (applyDispersionModel fns isDay field effects wind) := by
  unfold applyDispersionModel
  refine forall₂_map_self _ _ _ fun row hrow => forall₂_map_self _ _ _ fun b hb => ?_
  refine projectCell_of_no_influence fns _ _ _ effects b (hfloor row hrow b hb) ?_
  intro t ht
  exact calculateTreeInfluence_eq_zero fns b t _ _ _
    (haway row hrow b hb t ht).1 (haway row hrow b hb t ht).2

unseal Rat.add Rat.sub Rat.mul Rat.inv Rat.ofScientific in
/-- Witness for C2: a concrete field, one concrete tree strictly upwind and
out of canopy; the projected cell keeps pm25 = 20 with reduction 0. -/
theorem C2_upwind_neutrality_witness :
    List.Forall₂
      (List.Forall₂ fun b p =>
        p.pm25 = b.pm25 ∧ p.pm10 = b.pm25 * 1.4 ∧ p.reduction = some 0)
      ([[⟨0, 0, 20, 28, none⟩]] : List (List GridCell))
      (applyDispersionModel
        ⟨fun _ => 0, fun _ => 1, fun _ => 1, fun _ => 1000000, fun _ _ => 0, fun _ => 1⟩
        true [[⟨0, 0, 20, 28, none⟩]]
        [⟨0, 1, 0, "neem", ⟨"neem", 28.4, 21.7, 5.2, 285, 12, ⟨0.85, 1.0, 0.95⟩,
            ⟨800, 500, 300⟩⟩, 24.14, 0.00208, 285, 6, 0.85⟩]
        ⟨10, 0⟩) :=
  C2_upwind_neutrality
    ⟨fun _ => 0, fun _ => 1, fun _ => 1, fun _ => 1000000, fun _ _ => 0, fun _ => 1⟩
    true [[⟨0, 0, 20, 28, none⟩]]
    [⟨0, 1, 0, "neem", ⟨"neem", 28.4, 21.7, 5.2, 285, 12, ⟨0.85, 1.0, 0.95⟩,
        ⟨800, 500, 300⟩⟩, 24.14, 0.00208, 285, 6, 0.85⟩]
    ⟨10, 0⟩ (by decide) (by decide)

/-- Two maps of the same list are pointwise related when the functions are. -/
lemma forall₂_map_both {α β γ : Type} (R : β → γ → Prop) (f : α → β) (g : α → γ)
    (l : List α) (h : ∀ a ∈ l, R (f a) (g a)) :
    List.Forall₂ R (l.map f) (l.map g) := by
  rw [List.forall₂_map_right_iff, List.forall₂_map_left_iff, List.forall₂_same]
  exact h

/-- Every ay coefficient of the dispersion table is positive. -/
lemma coefficients_ay_pos (st : Stability) : 0 < (coefficients st).ay := by
  cases st <;> norm_num [coefficients]

/-- With a nonnegative `powNegHalf`, the horizontal dispersion coefficient
sigmaY is nonnegative. -/
lemma sigmaY_nonneg (fns : MathFns) (hpow : ∀ x, 0 ≤ fns.powNegHalf x)
    (st : Stability) (d : ℚ) : 0 ≤ (getDispersionCoefficients fns st d).1 := by
  unfold getDispersionCoefficients
  simp only []
  have hx : (0 : ℚ) < dispersionX d := lt_of_lt_of_le one_pos (le_max_right _ _)
  have hay := coefficients_ay_pos st
  have := hpow (1 + (coefficients st).yb * dispersionX d)
  positivity

/-- ratPi is positive. -/
lemma ratPi_pos : 0 < ratPi := by norm_num [ratPi]

/-- A single tree's influence at a fixed cell is monotone in its effective
removal rate `baseRemoval`, given nonnegative `exp`/`powNegHalf` values and a
wind-speed divisor of at least 1. -/
lemma calculateTreeInfluence_mono (fns : MathFns)
    (hexp : ∀ x, 0 ≤ fns.exp x) (hpow : ∀ x, 0 ≤ fns.powNegHalf x)
    (cell : GridCell) (t : TreeEffect) (ws wr : ℚ) (hws : 1 ≤ ws)
    (st : Stability) (r1 r2 : ℚ) (hr : r1 ≤ r2) :
    calculateTreeInfluence fns cell { t with baseRemoval := r1 } ws wr st ≤
      calculateTreeInfluence fns cell { t with baseRemoval := r2 } ws wr st := by
  unfold calculateTreeInfluence
  simp only []
  have e1 : ∀ r : ℚ, treeCellDistance fns cell { t with baseRemoval := r }
      = treeCellDistance fns cell t := fun _ => rfl
  have e2 : ∀ r : ℚ, downwindDist fns cell { t with baseRemoval := r } wr
      = downwindDist fns cell t wr := fun _ => rfl
  have e3 : ∀ r : ℚ, treeCellDx fns cell { t with baseRemoval := r }
      = treeCellDx fns cell t := fun _ => rfl
  have e4 : ∀ r : ℚ, treeCellDy cell { t with baseRemoval := r }
      = treeCellDy cell t := fun _ => rfl
  simp only [e1, e2, e3, e4]
  by_cases hcan :
      treeCellDistance fns cell t ≤ t.effectiveRadius
  · rw [if_pos hcan, if_pos hcan]
    have : (0.3 : ℚ) = 3/10 := by norm_num
    rw [this]
    linarith
  · rw [if_neg hcan, if_neg hcan]
    by_cases hup : downwindDist fns cell t wr < 0
    · rw [if_pos hup, if_pos hup]
    · rw [if_neg hup, if_neg hup]
      have hu : (0 : ℚ) < ws / 3.6 := by
        have : (0 : ℚ) < ws := lt_of_lt_of_le one_pos hws
        positivity
      have hsy := sigmaY_nonneg fns hpow st (downwindDist fns cell t wr)
      set sy := (getDispersionCoefficients fns st (downwindDist fns cell t wr)).1 with hsy'
      have hden : (0 : ℚ) < 2 * ratPi * (ws / 3.6) * (sy + 1) := by
        have := ratPi_pos
        positivity
      have h1 : r1 * 1000 / (2 * ratPi * (ws / 3.6) * (sy + 1)) ≤
          r2 * 1000 / (2 * ratPi * (ws / 3.6) * (sy + 1)) :=
        (div_le_div_iff_of_pos_right hden).mpr (by linarith)
      have hE := hexp (-(|treeCellDx fns cell t * fns.cos wr -
          treeCellDy cell t * fns.sin wr| ^ 2) / (2 * (sy + 1) ^ 2))
      have hF := hexp (-(treeCellDistance fns cell t) / 500)
      have hmul : r1 * 1000 / (2 * ratPi * (ws / 3.6) * (sy + 1)) *
            fns.exp (-(|treeCellDx fns cell t * fns.cos wr -
              treeCellDy cell t * fns.sin wr| ^ 2) / (2 * (sy + 1) ^ 2)) ≤
          r2 * 1000 / (2 * ratPi * (ws / 3.6) * (sy + 1)) *
            fns.exp (-(|treeCellDx fns cell t * fns.cos wr -
              treeCellDy cell t * fns.sin wr| ^ 2) / (2 * (sy + 1) ^ 2)) :=
        mul_le_mul_of_nonneg_right h1 hE
      have hmul2 := mul_le_mul_of_nonneg_right hmul hF
      have h001 : (0 : ℚ) ≤ 0.001 := by norm_num
      exact mul_le_mul_of_nonneg_right hmul2 h001

/-- The per-cell projection is antitone in one tree's removal rate: raising
`baseRemoval` can only lower (never raise) the projected pm25. -/
lemma projectCell_antitone (fns : MathFns)
    (hexp : ∀ x, 0 ≤ fns.exp x) (hpow : ∀ x, 0 ≤ fns.powNegHalf x)
    (ws wr : ℚ) (hws : 1 ≤ ws) (st : Stability)
    (pre post : List TreeEffect) (t : TreeEffect) (r1 r2 : ℚ) (hr : r1 ≤ r2)
    (b : GridCell) (hb : 0 ≤ b.pm25) :
    (projectCell fns ws wr st (pre ++ { t with baseRemoval := r2 } :: post) b).pm25 ≤
      (projectCell fns ws wr st (pre ++ { t with baseRemoval := r1 } :: post) b).pm25 := by
  unfold projectCell
  simp only [List.map_append, List.map_cons, List.sum_append, List.sum_cons]
  set s1 := (pre.map fun tree =>
    calculateTreeInfluence fns b tree ws wr st).sum with hs1
  set s2 := (post.map fun tree =>
    calculateTreeInfluence fns b tree ws wr st).sum with hs2
  have hmono := calculateTreeInfluence_mono fns hexp hpow b t ws wr hws st r1 r2 hr
  set i1 := calculateTreeInfluence fns b { t with baseRemoval := r1 } ws wr st with hi1
  set i2 := calculateTreeInfluence fns b { t with baseRemoval := r2 } ws wr st with hi2
  have htot : s1 + (i1 + s2) ≤ s1 + (i2 + s2) := by linarith
  have hdiv : (s1 + (i1 + s2)) / b.pm25 ≤ (s1 + (i2 + s2)) / b.pm25 := by
    rcases eq_or_lt_of_le hb with hb0 | hb0
    · rw [← hb0, div_zero, div_zero]
    · exact (div_le_div_iff_of_pos_right hb0).mpr htot
  have hminle : min ((s1 + (i1 + s2)) / b.pm25) 0.6 ≤ min ((s1 + (i2 + s2)) / b.pm25) 0.6 :=
    min_le_min hdiv (le_refl _)
  have hfac : 1 - min ((s1 + (i2 + s2)) / b.pm25) 0.6 ≤
      1 - min ((s1 + (i1 + s2)) / b.pm25) 0.6 := by linarith
  have hmul : b.pm25 * (1 - min ((s1 + (i2 + s2)) / b.pm25) 0.6) ≤
      b.pm25 * (1 - min ((s1 + (i1 + s2)) / b.pm25) 0.6) :=
    mul_le_mul_of_nonneg_left hfac hb
  exact max_le_max hmul (le_refl 10)

/-- C3: increasing one tree's effective removal rate (`baseRemoval`), with
every other input fixed, never increases the projected pm25 concentration at
any cell: each tree's per-cell contribution is nonnegative-coefficient
linear in the rate, so the summed reduction grows, the reduction factor
shrinks and the clamped concentration cannot rise.  The abstracted `exp` and
`pow (·) (-0.5)` values are assumed nonnegative, as the real functions are. -/
theorem C3_removal_rate_monotone (fns : MathFns)
    (hexp : ∀ x, 0 ≤ fns.exp x) (hpow : ∀ x, 0 ≤ fns.powNegHalf x)
    (isDay : Bool) (field : List (List GridCell)) (wind : WindData)
    (pre post : List TreeEffect) (t : TreeEffect) (r1 r2 : ℚ) (hr : r1 ≤ r2)
    (hb : ∀ row ∈ field, ∀ c ∈ row, 0 ≤ c.pm25) :
    List.Forall₂ (List.Forall₂ fun p2 p1 => p2.pm25 ≤ p1.pm25)
      (applyDispersionModel fns isDay field (pre ++ { t with baseRemoval := r2 } :: post) wind)
      (applyDispersionModel fns isDay field (pre ++ { t with baseRemoval := r1 } :: post) wind) := by
  unfold applyDispersionModel
  refine forall₂_map_both _ _ _ _ fun row hrow => forall₂_map_both _ _ _ _ fun b hbmem => ?_
  exact projectCell_antitone fns hexp hpow _ _ (le_max_right _ _) _ pre post t r1 r2 hr b
    (hb row hrow b hbmem)

unseal Rat.add Rat.sub Rat.mul Rat.inv Rat.ofScientific in
/-- Witness for C3: raising the concrete tree's removal rate from 10 to 24.14
does not raise the projected pm25 of a concrete downwind cell. -/
theorem C3_removal_rate_monotone_witness :
    List.Forall₂ (List.Forall₂ fun p2 p1 => p2.pm25 ≤ p1.pm25)
      (applyDispersionModel
        ⟨fun _ => 0, fun _ => 1, fun _ => 1, fun x => x, fun _ _ => 0, fun _ => 1⟩
        true ([[⟨0, 0, 100, 140, none⟩]] : List (List GridCell))
        ([] ++ { (⟨0, -0.001, 0, "neem", ⟨"neem", 28.4, 21.7, 5.2, 285, 12,
            ⟨0.85, 1.0, 0.95⟩, ⟨800, 500, 300⟩⟩, 24.14, 0.00208, 285, 6, 0.85⟩ : TreeEffect)
            with baseRemoval := 24.14 } :: [])
        ⟨10, 0⟩)
      (applyDispersionModel
        ⟨fun _ => 0, fun _ => 1, fun _ => 1, fun x => x, fun _ _ => 0, fun _ => 1⟩
        true ([[⟨0, 0, 100, 140, none⟩]] : List (List GridCell))
        ([] ++ { (⟨0, -0.001, 0, "neem", ⟨"neem", 28.4, 21.7, 5.2, 285, 12,
            ⟨0.85, 1.0, 0.95⟩, ⟨800, 500, 300⟩⟩, 24.14, 0.00208, 285, 6, 0.85⟩ : TreeEffect)
            with baseRemoval := 10 } :: [])
        ⟨10, 0⟩) :=
  C3_removal_rate_monotone
    ⟨fun _ => 0, fun _ => 1, fun _ => 1, fun x => x, fun _ _ => 0, fun _ => 1⟩
    (fun _ => (by norm_num : (0 : ℚ) ≤ 1)) (fun _ => (by norm_num : (0 : ℚ) ≤ 1))
    true [[⟨0, 0, 100, 140, none⟩]] ⟨10, 0⟩ [] []
    ⟨0, -0.001, 0, "neem", ⟨"neem", 28.4, 21.7, 5.2, 285, 12,
      ⟨0.85, 1.0, 0.95⟩, ⟨800, 500, 300⟩⟩, 24.14, 0.00208, 285, 6, 0.85⟩
    10 24.14 (by decide) (by decide)

/-- Every IDW weight is strictly positive, whatever the distance value. -/
lemma idwWeight_pos (d : ℚ) : 0 < idwWeight d := by
  unfold idwWeight
  by_cases h : d < 1/10
  · rw [if_pos h]
    norm_num
  · rw [if_neg h]
    have hd : (1 : ℚ)/10 ≤ d := not_lt.mp h
    have : (0 : ℚ) < d := lt_of_lt_of_le (by norm_num) hd
    positivity

/-- `a || b` keeps `a` when `a` is truthy. -/
lemma jsOr_of_ne {x : ℚ} (y : ℚ) (h : x ≠ 0) : jsOr x y = x := if_neg h

/-- Running the IDW accumulation over stations whose (nonzero) pm25 readings
lie in `[a, b]` preserves the invariant
`a * totalWeight ≤ weightedPM25 ≤ b * totalWeight` and strictly increases the
total weight for every station consumed. -/
lemma idw_foldl_bounds (fns : MathFns) (lat lng a b : ℚ) (l : List Station)
    (hl : ∀ s ∈ l, s.pm25 ≠ 0 ∧ a ≤ s.pm25 ∧ s.pm25 ≤ b) :
    ∀ acc : IdwAcc,
      a * acc.totalWeight ≤ acc.weightedPM25 →
      acc.weightedPM25 ≤ b * acc.totalWeight →
      a * (l.foldl (idwStep fns lat lng) acc).totalWeight ≤
          (l.foldl (idwStep fns lat lng) acc).weightedPM25 ∧
        (l.foldl (idwStep fns lat lng) acc).weightedPM25 ≤
          b * (l.foldl (idwStep fns lat lng) acc).totalWeight ∧
        acc.totalWeight + (if l = [] then 0 else 1) * 0 ≤
          (l.foldl (idwStep fns lat lng) acc).totalWeight ∧
        (l ≠ [] → acc.totalWeight < (l.foldl (idwStep fns lat lng) acc).totalWeight) := by
  induction l with
  | nil =>
      intro acc h1 h2
      exact ⟨h1, h2, by simp, fun h => absurd rfl h⟩
  | cons s rest ih =>
      intro acc h1 h2
      have hs := hl s (List.mem_cons_self s rest)
      have hrest : ∀ x ∈ rest, x.pm25 ≠ 0 ∧ a ≤ x.pm25 ∧ x.pm25 ≤ b :=
        fun x hx => hl x (List.mem_cons_of_mem s hx)
      rw [List.foldl_cons]
      set w := idwWeight (haversineDistance fns lat lng s.lat s.lng) with hw
      have hwpos : 0 < w := idwWeight_pos _
      have hstep : (idwStep fns lat lng acc s).totalWeight = acc.totalWeight + w ∧
          (idwStep fns lat lng acc s).weightedPM25
            = acc.weightedPM25 + jsOr s.pm25 s.aqi * w := ⟨rfl, rfl⟩
      have hjs : jsOr s.pm25 s.aqi = s.pm25 := jsOr_of_ne s.aqi hs.1
      have h1' : a * (idwStep fns lat lng acc s).totalWeight ≤
          (idwStep fns lat lng acc s).weightedPM25 := by
        rw [hstep.1, hstep.2, hjs]
        nlinarith [hs.2.1, hs.2.2]
      have h2' : (idwStep fns lat lng acc s).weightedPM25 ≤
          b * (idwStep fns lat lng acc s).totalWeight := by
        rw [hstep.1, hstep.2, hjs]
        nlinarith [hs.2.1, hs.2.2]
      have hmain := ih hrest (idwStep fns lat lng acc s) h1' h2'
      refine ⟨hmain.1, hmain.2.1, ?_, ?_⟩
      · have := hmain.2.2.1
        rw [hstep.1] at this
        simp only [mul_zero, add_zero] at this ⊢
        linarith
      · intro _
        have := hmain.2.2.1
        rw [hstep.1] at this
        simp only [mul_zero, add_zero] at this
        linarith

/-- Rounding a value of `[a, b]` lands within `[a - 1/2, b + 1/2]`. -/
lemma jsRound_bounds {a b x : ℚ} (h1 : a ≤ x) (h2 : x ≤ b) :
    a - 1/2 ≤ jsRound x ∧ jsRound x ≤ b + 1/2 := by
  unfold jsRound
  constructor
  · have := Int.lt_floor_add_one (x + 1/2)
    have hf : x + 1/2 - 1 < (⌊x + 1/2⌋ : ℚ) := by
      have := Int.lt_floor_add_one (x + 1/2)
      linarith [Int.sub_one_lt_floor (x + 1/2)]
    linarith
  · have hf : (⌊x + 1/2⌋ : ℚ) ≤ x + 1/2 := Int.floor_le _
    linarith

unseal Rat.add Rat.sub Rat.mul Rat.inv Rat.ofScientific in
/-- C5 counterexample: a single station reading 10.5 lies in the interval
[10.5, 10.5], but the interpolated pm25 at the station's own coordinate is
the rounded value 11, outside that interval. -/
theorem C5_counterexample :
    ¬(21/2 ≤ (interpolateAQI
          ⟨fun _ => 0, fun _ => 1, fun _ => 1, fun x => x, fun _ _ => 0, fun _ => 1⟩
          0 0 [⟨0, 0, 0, 21/2, 0⟩]).pm25 ∧
      (interpolateAQI
          ⟨fun _ => 0, fun _ => 1, fun _ => 1, fun x => x, fun _ _ => 0, fun _ => 1⟩
          0 0 [⟨0, 0, 0, 21/2, 0⟩]).pm25 ≤ 21/2) := by
  decide

/-- C5 (amended): for a non-empty station list whose pm25 readings are all
nonzero (a zero or missing reading falls back to the station's aqi value in
the source) and lie in `[a, b]`, the weighted average that `interpolateAQI`
computes lies in `[a, b]` — every IDW weight is strictly positive — and the
returned pm25, being that average rounded to the nearest integer, lies
within `[a - 1/2, b + 1/2]`. -/
theorem C5_interpolation_bounded (fns : MathFns) (lat lng a b : ℚ)
    (stations : List Station) (hne : stations ≠ [])
    (hl : ∀ s ∈ stations, s.pm25 ≠ 0 ∧ a ≤ s.pm25 ∧ s.pm25 ≤ b) :
    (a ≤ (stations.foldl (idwStep fns lat lng) ⟨0, 0, 0, 0⟩).weightedPM25 /
          (stations.foldl (idwStep fns lat lng) ⟨0, 0, 0, 0⟩).totalWeight ∧
        (stations.foldl (idwStep fns lat lng) ⟨0, 0, 0, 0⟩).weightedPM25 /
          (stations.foldl (idwStep fns lat lng) ⟨0, 0, 0, 0⟩).totalWeight ≤ b) ∧
      a - 1/2 ≤ (interpolateAQI fns lat lng stations).pm25 ∧
        (interpolateAQI fns lat lng stations).pm25 ≤ b + 1/2 := by
  have hbounds := idw_foldl_bounds fns lat lng a b stations hl ⟨0, 0, 0, 0⟩
    (by simp) (by simp)
  set r := stations.foldl (idwStep fns lat lng) ⟨0, 0, 0, 0⟩ with hr
  have hWpos : 0 < r.totalWeight := by
    have := hbounds.2.2.2 hne
    simpa using this
  have havg : a ≤ r.weightedPM25 / r.totalWeight ∧ r.weightedPM25 / r.totalWeight ≤ b := by
    constructor
    · rw [le_div_iff₀ hWpos]
      linarith [hbounds.1]
    · rw [div_le_iff₀ hWpos]
      linarith [hbounds.2.1]
  refine ⟨havg, ?_⟩
  have hres : (interpolateAQI fns lat lng stations).pm25
      = jsRound (r.weightedPM25 / r.totalWeight) := by
    unfold interpolateAQI
    rw [if_neg hne]
  rw [hres]
  exact jsRound_bounds havg.1 havg.2

unseal Rat.add Rat.sub Rat.mul Rat.inv Rat.ofScientific in
/-- Witness for C5: two concrete stations reading 50 and 100; the averaged
pm25 stays in [50, 100] and the rounded result in [49.5, 100.5]. -/
theorem C5_interpolation_bounded_witness :
    (50 ≤ (([⟨0, 0, 0, 50, 0⟩, ⟨1, 1, 0, 100, 0⟩] : List Station).foldl
            (idwStep ⟨fun _ => 0, fun _ => 1, fun _ => 1, fun x => x, fun _ _ => 0, fun _ => 1⟩
              0 0) ⟨0, 0, 0, 0⟩).weightedPM25 /
          (([⟨0, 0, 0, 50, 0⟩, ⟨1, 1, 0, 100, 0⟩] : List Station).foldl
            (idwStep ⟨fun _ => 0, fun _ => 1, fun _ => 1, fun x => x, fun _ _ => 0, fun _ => 1⟩
              0 0) ⟨0, 0, 0, 0⟩).totalWeight ∧
        (([⟨0, 0, 0, 50, 0⟩, ⟨1, 1, 0, 100, 0⟩] : List Station).foldl
            (idwStep ⟨fun _ => 0, fun _ => 1, fun _ => 1, fun x => x, fun _ _ => 0, fun _ => 1⟩
              0 0) ⟨0, 0, 0, 0⟩).weightedPM25 /
          (([⟨0, 0, 0, 50, 0⟩, ⟨1, 1, 0, 100, 0⟩] : List Station).foldl
            (idwStep ⟨fun _ => 0, fun _ => 1, fun _ => 1, fun x => x, fun _ _ => 0, fun _ => 1⟩
              0 0) ⟨0, 0, 0, 0⟩).totalWeight ≤ 100) ∧
      50 - 1/2 ≤ (interpolateAQI
          ⟨fun _ => 0, fun _ => 1, fun _ => 1, fun x => x, fun _ _ => 0, fun _ => 1⟩
          0 0 [⟨0, 0, 0, 50, 0⟩, ⟨1, 1, 0, 100, 0⟩]).pm25 ∧
        (interpolateAQI
          ⟨fun _ => 0, fun _ => 1, fun _ => 1, fun x => x, fun _ _ => 0, fun _ => 1⟩
          0 0 [⟨0, 0, 0, 50, 0⟩, ⟨1, 1, 0, 100, 0⟩]).pm25 ≤ 100 + 1/2 :=
  C5_interpolation_bounded
    ⟨fun _ => 0, fun _ => 1, fun _ => 1, fun x => x, fun _ _ => 0, fun _ => 1⟩
    0 0 50 100 [⟨0, 0, 0, 50, 0⟩, ⟨1, 1, 0, 100, 0⟩] (by decide) (by decide)

/-- The interpolated pm25 as the spec words it: the inverse-distance-squared
weighted average of the stations' pm25 readings.  This follows §4.1 of the
spec, not the source, for comparison against `interpolateAQI`. -/
def specWeightedPM25 (fns : MathFns) (lat lng : ℚ) (stations : List Station) : ℚ :=
  (stations.map fun s =>
      idwWeight (haversineDistance fns lat lng s.lat s.lng) * s.pm25).sum /
    (stations.map fun s => idwWeight (haversineDistance fns lat lng s.lat s.lng)).sum

/-- The interpolated pm10 as the spec words it: the same weighted average of
the stations' pm10 readings where provided, with a missing pm10 approximated
as 1.4 × that station's pm25.  Spec-side definition for comparison. -/
def specWeightedPM10 (fns : MathFns) (lat lng : ℚ) (stations : List Station) : ℚ :=
  (stations.map fun s =>
      idwWeight (haversineDistance fns lat lng s.lat s.lng) *
        (if s.pm10 = 0 then 1.4 * s.pm25 else s.pm10)).sum /
    (stations.map fun s => idwWeight (haversineDistance fns lat lng s.lat s.lng)).sum

/-- The pm25 weighted average the source actually accumulates: station pm25
falling back to the aqi reading when absent. -/
def codeWeightedPM25 (fns : MathFns) (lat lng : ℚ) (stations : List Station) : ℚ :=
  (stations.map fun s =>
      jsOr s.pm25 s.aqi * idwWeight (haversineDistance fns lat lng s.lat s.lng)).sum /
    (stations.map fun s => idwWeight (haversineDistance fns lat lng s.lat s.lng)).sum

/-- The pm10 weighted average the source actually accumulates: station pm10
falling back to 1.3 × the station's aqi reading (not 1.4 × pm25) when absent. -/
def codeWeightedPM10 (fns : MathFns) (lat lng : ℚ) (stations : List Station) : ℚ :=
  (stations.map fun s =>
      jsOr s.pm10 (s.aqi * (13/10)) *
        idwWeight (haversineDistance fns lat lng s.lat s.lng)).sum /
    (stations.map fun s => idwWeight (haversineDistance fns lat lng s.lat s.lng)).sum

/-- The IDW fold is the componentwise sum of per-station contributions. -/
lemma idw_foldl_eq (fns : MathFns) (lat lng : ℚ) (l : List Station) :
    ∀ acc : IdwAcc,
      (l.foldl (idwStep fns lat lng) acc).totalWeight
          = acc.totalWeight +
            (l.map fun s => idwWeight (haversineDistance fns lat lng s.lat s.lng)).sum ∧
        (l.foldl (idwStep fns lat lng) acc).weightedPM25
          = acc.weightedPM25 +
            (l.map fun s =>
              jsOr s.pm25 s.aqi * idwWeight (haversineDistance fns lat lng s.lat s.lng)).sum ∧
        (l.foldl (idwStep fns lat lng) acc).weightedPM10
          = acc.weightedPM10 +
            (l.map fun s =>
              jsOr s.pm10 (s.aqi * (13/10)) *
                idwWeight (haversineDistance fns lat lng s.lat s.lng)).sum := by
  induction l with
  | nil => intro acc; simp
  | cons s rest ih =>
      intro acc
      rw [List.foldl_cons]
      have h := ih (idwStep fns lat lng acc s)
      refine ⟨?_, ?_, ?_⟩
      · rw [h.1]
        show (idwStep fns lat lng acc s).totalWeight + _ = _
        simp only [idwStep, List.map_cons, List.sum_cons]
        ring
      · rw [h.2.1]
        show (idwStep fns lat lng acc s).weightedPM25 + _ = _
        simp only [idwStep, List.map_cons, List.sum_cons]
        ring
      · rw [h.2.2]
        show (idwStep fns lat lng acc s).weightedPM10 + _ = _
        simp only [idwStep, List.map_cons, List.sum_cons]
        ring

unseal Rat.add Rat.sub Rat.mul Rat.inv Rat.ofScientific in
/-- C6 counterexample: a station with aqi 200, pm25 100 and no pm10 reading.
The spec's formula yields a pm10 of 1.4 × 100 = 140, but the source
accumulates 1.3 × aqi = 260 for the missing pm10, so the returned pm10
differs from the spec-side weighted average. -/
theorem C6_counterexample :
    (interpolateAQI
        ⟨fun _ => 0, fun _ => 1, fun _ => 1, fun x => x, fun _ _ => 0, fun _ => 1⟩
        0 0 [⟨0, 0, 200, 100, 0⟩]).pm10 ≠
      some (jsRound (specWeightedPM10
        ⟨fun _ => 0, fun _ => 1, fun _ => 1, fun x => x, fun _ _ => 0, fun _ => 1⟩
        0 0 [⟨0, 0, 200, 100, 0⟩])) := by
  decide

/-- C6 (amended): for a non-empty station list, `interpolateAQI` returns the
rounded inverse-distance-squared weighted averages, where each station's
pm25 contribution falls back to its aqi reading when pm25 is absent, and
each station's pm10 contribution falls back to 1.3 × its aqi reading (not
1.4 × its pm25) when pm10 is absent; the fixed 1.4 pm10/pm25 ratio is
instead applied per grid cell by `calculateBaselineField`, whose every cell
has pm10 = 1.4 × pm25. -/
theorem C6_weighted_average_form (fns : MathFns) (lat lng : ℚ)
    (stations : List Station) (hne : stations ≠ []) :
    (interpolateAQI fns lat lng stations).pm25
        = jsRound (codeWeightedPM25 fns lat lng stations) ∧
      (interpolateAQI fns lat lng stations).pm10
        = some (jsRound (codeWeightedPM10 fns lat lng stations)) ∧
      ∀ (city : String) (sd : List Station),
        ∀ row ∈ calculateBaselineField fns city sd, ∀ c ∈ row, c.pm10 = c.pm25 * 1.4 := by
  have h := idw_foldl_eq fns lat lng stations ⟨0, 0, 0, 0⟩
  refine ⟨?_, ?_, ?_⟩
  · unfold interpolateAQI
    rw [if_neg hne]
    simp only []
    rw [codeWeightedPM25, h.2.1, h.1]
    norm_num
  · unfold interpolateAQI
    rw [if_neg hne]
    simp only []
    rw [codeWeightedPM10, h.2.2, h.1]
    norm_num
  · intro city sd row hrow c hc
    unfold calculateBaselineField at hrow
    simp only [List.mem_map] at hrow
    rcases hrow with ⟨lat', _, rfl⟩
    simp only [List.mem_map] at hc
    rcases hc with ⟨lng', _, rfl⟩
    rfl

unseal Rat.add Rat.sub Rat.mul Rat.inv Rat.ofScientific in
/-- Witness for C6: the returned values at a concrete two-station list equal
the rounded code-side weighted averages, and baseline cells carry the 1.4
ratio. -/
theorem C6_weighted_average_form_witness :
    (interpolateAQI
          ⟨fun _ => 0, fun _ => 1, fun _ => 1, fun x => x, fun _ _ => 0, fun _ => 1⟩
          0 0 [⟨0, 0, 200, 100, 0⟩, ⟨1, 1, 150, 80, 120⟩]).pm25
        = jsRound (codeWeightedPM25
            ⟨fun _ => 0, fun _ => 1, fun _ => 1, fun x => x, fun _ _ => 0, fun _ => 1⟩
            0 0 [⟨0, 0, 200, 100, 0⟩, ⟨1, 1, 150, 80, 120⟩]) ∧
      (interpolateAQI
          ⟨fun _ => 0, fun _ => 1, fun _ => 1, fun x => x, fun _ _ => 0, fun _ => 1⟩
          0 0 [⟨0, 0, 200, 100, 0⟩, ⟨1, 1, 150, 80, 120⟩]).pm10
        = some (jsRound (codeWeightedPM10
            ⟨fun _ => 0, fun _ => 1, fun _ => 1, fun x => x, fun _ _ => 0, fun _ => 1⟩
            0 0 [⟨0, 0, 200, 100, 0⟩, ⟨1, 1, 150, 80, 120⟩])) ∧
      ∀ (city : String) (sd : List Station),
        ∀ row ∈ calculateBaselineField
            ⟨fun _ => 0, fun _ => 1, fun _ => 1, fun x => x, fun _ _ => 0, fun _ => 1⟩
            city sd,
          ∀ c ∈ row, c.pm10 = c.pm25 * 1.4 :=
  C6_weighted_average_form
    ⟨fun _ => 0, fun _ => 1, fun _ => 1, fun x => x, fun _ _ => 0, fun _ => 1⟩
    0 0 [⟨0, 0, 200, 100, 0⟩, ⟨1, 1, 150, 80, 120⟩] (by decide)

/-- Squared meter-space offset between two vertices, converting degree
offsets back with the same meters-per-degree factors that
`calculateZonePolygon` uses at the zone origin. -/
def meterGapSq (fns : MathFns) (origin a b : LatLng) : ℚ :=
  ((a.lat - b.lat) * 111320) ^ 2 +
    ((a.lng - b.lng) * (111320 * fns.cos (origin.lat * ratPi / 180))) ^ 2

/-- Geometry of the trapezoid built by `calculateZonePolygon`: four vertices,
the near edge is centred on the origin with total width `2 * nearWidth`, the
far edge has total width `2 * farWidth`, and the far-edge centre sits at
meter distance `length` from the origin. -/
lemma zonePolygon_geometry (fns : MathFns) (origin : LatLng)
    (direction length nearWidth farWidth : ℚ)
    (hm : fns.cos (origin.lat * ratPi / 180) ≠ 0)
    (hperp : fns.cos (direction + ratPi / 2) ^ 2 + fns.sin (direction + ratPi / 2) ^ 2 = 1)
    (hdir : fns.cos direction ^ 2 + fns.sin direction ^ 2 = 1) :
    (calculateZonePolygon fns origin direction length nearWidth farWidth).length = 4 ∧
      (((calculateZonePolygon fns origin direction length nearWidth farWidth).getD 0 ⟨0, 0⟩).lat +
          ((calculateZonePolygon fns origin direction length nearWidth farWidth).getD 3 ⟨0, 0⟩).lat) / 2
        = origin.lat ∧
      (((calculateZonePolygon fns origin direction length nearWidth farWidth).getD 0 ⟨0, 0⟩).lng +
          ((calculateZonePolygon fns origin direction length nearWidth farWidth).getD 3 ⟨0, 0⟩).lng) / 2
        = origin.lng ∧
      meterGapSq fns origin
          ((calculateZonePolygon fns origin direction length nearWidth farWidth).getD 0 ⟨0, 0⟩)
          ((calculateZonePolygon fns origin direction length nearWidth farWidth).getD 3 ⟨0, 0⟩)
        = (2 * nearWidth) ^ 2 ∧
      meterGapSq fns origin
          ((calculateZonePolygon fns origin direction length nearWidth farWidth).getD 1 ⟨0, 0⟩)
          ((calculateZonePolygon fns origin direction length nearWidth farWidth).getD 2 ⟨0, 0⟩)
        = (2 * farWidth) ^ 2 ∧
      meterGapSq fns origin
          ⟨(((calculateZonePolygon fns origin direction length nearWidth farWidth).getD 1 ⟨0, 0⟩).lat +
              ((calculateZonePolygon fns origin direction length nearWidth farWidth).getD 2 ⟨0, 0⟩).lat) / 2,
            (((calculateZonePolygon fns origin direction length nearWidth farWidth).getD 1 ⟨0, 0⟩).lng +
              ((calculateZonePolygon fns origin direction length nearWidth farWidth).getD 2 ⟨0, 0⟩).lng) / 2⟩
          origin
        = length ^ 2 := by
  unfold calculateZonePolygon meterGapSq
  simp only [List.getD_cons_zero, List.getD_cons_succ]
  set c := fns.cos (origin.lat * ratPi / 180) with hc
  set cp := fns.cos (direction + ratPi / 2) with hcp
  set sp := fns.sin (direction + ratPi / 2) with hsp
  set cd := fns.cos direction with hcd
  set sd := fns.sin direction with hsd
  refine ⟨by norm_num, by ring, by ring, ?_, ?_, ?_⟩
  · field_simp
    linear_combination (2 * nearWidth) ^ 2 * hperp
  · field_simp
    linear_combination (2 * farWidth) ^ 2 * hperp
  · field_simp
    linear_combination (2457043092190044160000 * length ^ 2 * c ^ 2) * hdir

unseal Rat.add Rat.sub Rat.mul Rat.inv Rat.ofScientific in
/-- C7 counterexample: for a tree with canopy radius 6 and a trig
instantiation satisfying cos² + sin² = 1, the near edge of the produced
trapezoid measures 24 m across (4 × radius), not the claimed 2 × radius
= 12 m (squared: 576 ≠ 144). -/
theorem C7_counterexample :
    meterGapSq ⟨fun _ => 0, fun _ => 1, fun _ => 1, fun x => x, fun _ _ => 0, fun _ => 1⟩
        ⟨0, 0⟩
        ((calculateDownwindZone
            ⟨fun _ => 0, fun _ => 1, fun _ => 1, fun x => x, fun _ _ => 0, fun _ => 1⟩
            ⟨0, 0⟩ 6 ⟨10, 0⟩).getD 0 ⟨0, 0⟩)
        ((calculateDownwindZone
            ⟨fun _ => 0, fun _ => 1, fun _ => 1, fun x => x, fun _ _ => 0, fun _ => 1⟩
            ⟨0, 0⟩ 6 ⟨10, 0⟩).getD 3 ⟨0, 0⟩)
      ≠ (2 * 6) ^ 2 := by
  decide

/-- C7 (amended): the impact-zone builder returns a 4-vertex trapezoid whose
near edge is centred on the tree with total width 4 × canopy radius (the
source offsets by ± `nearWidth = 2r`), whose far edge has total width
1 × canopy radius (offsets of ± `farWidth = 0.5r`), and whose far-edge
centre lies at meter distance `canopyRadius * 10 * (1 + windSpeed / 30)`
downwind of the tree.  Hypotheses: the abstracted sine/cosine satisfy the
Pythagorean identity at the two bearings used, and the cosine of the tree
latitude is nonzero (true away from the poles). -/
theorem C7_zone_trapezoid (fns : MathFns) (treeLocation : LatLng)
    (canopyRadius : ℚ) (windData : WindData)
    (hm : fns.cos (treeLocation.lat * ratPi / 180) ≠ 0)
    (hperp : fns.cos (jsMod (jsOr windData.direction 0 + 180) 360 * ratPi / 180 + ratPi / 2) ^ 2 +
        fns.sin (jsMod (jsOr windData.direction 0 + 180) 360 * ratPi / 180 + ratPi / 2) ^ 2 = 1)
    (hdir : fns.cos (jsMod (jsOr windData.direction 0 + 180) 360 * ratPi / 180) ^ 2 +
        fns.sin (jsMod (jsOr windData.direction 0 + 180) 360 * ratPi / 180) ^ 2 = 1) :
    (calculateDownwindZone fns treeLocation canopyRadius windData).length = 4 ∧
      (((calculateDownwindZone fns treeLocation canopyRadius windData).getD 0 ⟨0, 0⟩).lat +
          ((calculateDownwindZone fns treeLocation canopyRadius windData).getD 3 ⟨0, 0⟩).lat) / 2
        = treeLocation.lat ∧
      (((calculateDownwindZone fns treeLocation canopyRadius windData).getD 0 ⟨0, 0⟩).lng +
          ((calculateDownwindZone fns treeLocation canopyRadius windData).getD 3 ⟨0, 0⟩).lng) / 2
        = treeLocation.lng ∧
      meterGapSq fns treeLocation
          ((calculateDownwindZone fns treeLocation canopyRadius windData).getD 0 ⟨0, 0⟩)
          ((calculateDownwindZone fns treeLocation canopyRadius windData).getD 3 ⟨0, 0⟩)
        = (4 * canopyRadius) ^ 2 ∧
      meterGapSq fns treeLocation
          ((calculateDownwindZone fns treeLocation canopyRadius windData).getD 1 ⟨0, 0⟩)
          ((calculateDownwindZone fns treeLocation canopyRadius windData).getD 2 ⟨0, 0⟩)
        = canopyRadius ^ 2 ∧
      meterGapSq fns treeLocation
          ⟨(((calculateDownwindZone fns treeLocation canopyRadius windData).getD 1 ⟨0, 0⟩).lat +
              ((calculateDownwindZone fns treeLocation canopyRadius windData).getD 2 ⟨0, 0⟩).lat) / 2,
            (((calculateDownwindZone fns treeLocation canopyRadius windData).getD 1 ⟨0, 0⟩).lng +
              ((calculateDownwindZone fns treeLocation canopyRadius windData).getD 2 ⟨0, 0⟩).lng) / 2⟩
          treeLocation
        = (canopyRadius * 10 * (1 + jsOr windData.speed 10 / 30)) ^ 2 := by
  have hz : calculateDownwindZone fns treeLocation canopyRadius windData
      = calculateZonePolygon fns treeLocation
          (jsMod (jsOr windData.direction 0 + 180) 360 * ratPi / 180)
          (canopyRadius * 10 * (1 + jsOr windData.speed 10 / 30))
          (canopyRadius * 2) (canopyRadius * 0.5) := rfl
  rw [hz]
  have h := zonePolygon_geometry fns treeLocation
    (jsMod (jsOr windData.direction 0 + 180) 360 * ratPi / 180)
    (canopyRadius * 10 * (1 + jsOr windData.speed 10 / 30))
    (canopyRadius * 2) (canopyRadius * 0.5) hm hperp hdir
  refine ⟨h.1, h.2.1, h.2.2.1, ?_, ?_, h.2.2.2.2.2⟩
  · rw [show ((4 : ℚ) * canopyRadius) ^ 2 = (2 * (canopyRadius * 2)) ^ 2 by ring]
    exact h.2.2.2.1
  · rw [show (canopyRadius : ℚ) ^ 2 = (2 * (canopyRadius * 0.5)) ^ 2 by norm_num; ring]
    exact h.2.2.2.2.1

unseal Rat.add Rat.sub Rat.mul Rat.inv Rat.ofScientific in
/-- Witness for C7 at a concrete tree (lat 10, lng 20, radius 6) and wind
(speed 15 from bearing 90). -/
theorem C7_zone_trapezoid_witness :
    (calculateDownwindZone
        ⟨fun _ => 0, fun _ => 1, fun _ => 1, fun x => x, fun _ _ => 0, fun _ => 1⟩
        ⟨10, 20⟩ 6 ⟨15, 90⟩).length = 4 ∧
      (((calculateDownwindZone
            ⟨fun _ => 0, fun _ => 1, fun _ => 1, fun x => x, fun _ _ => 0, fun _ => 1⟩
            ⟨10, 20⟩ 6 ⟨15, 90⟩).getD 0 ⟨0, 0⟩).lat +
          ((calculateDownwindZone
            ⟨fun _ => 0, fun _ => 1, fun _ => 1, fun x => x, fun _ _ => 0, fun _ => 1⟩
            ⟨10, 20⟩ 6 ⟨15, 90⟩).getD 3 ⟨0, 0⟩).lat) / 2 = (10 : ℚ) ∧
      (((calculateDownwindZone
            ⟨fun _ => 0, fun _ => 1, fun _ => 1, fun x => x, fun _ _ => 0, fun _ => 1⟩
            ⟨10, 20⟩ 6 ⟨15, 90⟩).getD 0 ⟨0, 0⟩).lng +
          ((calculateDownwindZone
            ⟨fun _ => 0, fun _ => 1, fun _ => 1, fun x => x, fun _ _ => 0, fun _ => 1⟩
            ⟨10, 20⟩ 6 ⟨15, 90⟩).getD 3 ⟨0, 0⟩).lng) / 2 = (20 : ℚ) ∧
      meterGapSq ⟨fun _ => 0, fun _ => 1, fun _ => 1, fun x => x, fun _ _ => 0, fun _ => 1⟩
          ⟨10, 20⟩
          ((calculateDownwindZone
            ⟨fun _ => 0, fun _ => 1, fun _ => 1, fun x => x, fun _ _ => 0, fun _ => 1⟩
            ⟨10, 20⟩ 6 ⟨15, 90⟩).getD 0 ⟨0, 0⟩)
          ((calculateDownwindZone
            ⟨fun _ => 0, fun _ => 1, fun _ => 1, fun x => x, fun _ _ => 0, fun _ => 1⟩
            ⟨10, 20⟩ 6 ⟨15, 90⟩).getD 3 ⟨0, 0⟩) = (4 * 6) ^ 2 ∧
      meterGapSq ⟨fun _ => 0, fun _ => 1, fun _ => 1, fun x => x, fun _ _ => 0, fun _ => 1⟩
          ⟨10, 20⟩
          ((calculateDownwindZone
            ⟨fun _ => 0, fun _ => 1, fun _ => 1, fun x => x, fun _ _ => 0, fun _ => 1⟩
            ⟨10, 20⟩ 6 ⟨15, 90⟩).getD 1 ⟨0, 0⟩)
          ((calculateDownwindZone
            ⟨fun _ => 0, fun _ => 1, fun _ => 1, fun x => x, fun _ _ => 0, fun _ => 1⟩
            ⟨10, 20⟩ 6 ⟨15, 90⟩).getD 2 ⟨0, 0⟩) = (6 : ℚ) ^ 2 ∧
      meterGapSq ⟨fun _ => 0, fun _ => 1, fun _ => 1, fun x => x, fun _ _ => 0, fun _ => 1⟩
          ⟨10, 20⟩
          ⟨(((calculateDownwindZone
                ⟨fun _ => 0, fun _ => 1, fun _ => 1, fun x => x, fun _ _ => 0, fun _ => 1⟩
                ⟨10, 20⟩ 6 ⟨15, 90⟩).getD 1 ⟨0, 0⟩).lat +
              ((calculateDownwindZone
                ⟨fun _ => 0, fun _ => 1, fun _ => 1, fun x => x, fun _ _ => 0, fun _ => 1⟩
                ⟨10, 20⟩ 6 ⟨15, 90⟩).getD 2 ⟨0, 0⟩).lat) / 2,
            (((calculateDownwindZone
                ⟨fun _ => 0, fun _ => 1, fun _ => 1, fun x => x, fun _ _ => 0, fun _ => 1⟩
                ⟨10, 20⟩ 6 ⟨15, 90⟩).getD 1 ⟨0, 0⟩).lng +
              ((calculateDownwindZone
                ⟨fun _ => 0, fun _ => 1, fun _ => 1, fun x => x, fun _ _ => 0, fun _ => 1⟩
                ⟨10, 20⟩ 6 ⟨15, 90⟩).getD 2 ⟨0, 0⟩).lng) / 2⟩
          ⟨10, 20⟩ = ((6 : ℚ) * 10 * (1 + jsOr 15 10 / 30)) ^ 2 :=
  C7_zone_trapezoid
    ⟨fun _ => 0, fun _ => 1, fun _ => 1, fun x => x, fun _ _ => 0, fun _ => 1⟩
    ⟨10, 20⟩ 6 ⟨15, 90⟩ (by decide) (by decide) (by decide)

/-- C4 (amended): `runSimulation` is a pure function of its explicit inputs
together with the ambient day/night flag that `getStabilityClass` reads from
the wall clock: two runs with identical inputs whose clock reads resolve to
the same stability class — in particular any two runs in the same day/night
phase — produce identical results, summary KPIs included. -/
theorem C4_determinism_given_phase (fns : MathFns) (d1 d2 : Bool)
    (p : SimulationParams)
    (h : getStabilityClass d1 (effectiveWindSpeed p.windData.speed)
        = getStabilityClass d2 (effectiveWindSpeed p.windData.speed)) :
    (runSimulation fns d1 p).summary = (runSimulation fns d2 p).summary ∧
      runSimulation fns d1 p = runSimulation fns d2 p := by
  have happ : applyDispersionModel fns d1
      (calculateBaselineField fns p.city p.stationData)
      (calculateTreeEffects p.trees p.season) p.windData
      = applyDispersionModel fns d2
        (calculateBaselineField fns p.city p.stationData)
        (calculateTreeEffects p.trees p.season) p.windData := by
    unfold applyDispersionModel
    simp only []
    rw [h]
  constructor
  · unfold runSimulation
    simp only []
    rw [happ]
  · unfold runSimulation
    simp only []
    rw [happ]

unseal Rat.add Rat.sub Rat.mul Rat.inv Rat.ofScientific in
/-- Witness for C4: at wind speed 10 km/h day and night both classify as the
neutral stability class D, so a daytime and a nighttime run agree. -/
theorem C4_determinism_given_phase_witness :
    (runSimulation ⟨fun _ => 0, fun _ => 1, fun _ => 1, fun x => x, fun _ _ => 0, fun _ => 1⟩
        true ⟨[], "lahore", [], ⟨10, 0⟩, "winter"⟩).summary
      = (runSimulation ⟨fun _ => 0, fun _ => 1, fun _ => 1, fun x => x, fun _ _ => 0, fun _ => 1⟩
        false ⟨[], "lahore", [], ⟨10, 0⟩, "winter"⟩).summary ∧
      runSimulation ⟨fun _ => 0, fun _ => 1, fun _ => 1, fun x => x, fun _ _ => 0, fun _ => 1⟩
        true ⟨[], "lahore", [], ⟨10, 0⟩, "winter"⟩
      = runSimulation ⟨fun _ => 0, fun _ => 1, fun _ => 1, fun x => x, fun _ _ => 0, fun _ => 1⟩
        false ⟨[], "lahore", [], ⟨10, 0⟩, "winter"⟩ :=
  C4_determinism_given_phase
    ⟨fun _ => 0, fun _ => 1, fun _ => 1, fun x => x, fun _ _ => 0, fun _ => 1⟩
    true false ⟨[], "lahore", [], ⟨10, 0⟩, "winter"⟩ (by decide)

/-- Concrete instantiation of the abstracted math functions used to evaluate
the C4 run on a closed input: constant trig values (cos = 10⁻⁶ keeps the
longitude grid one column wide), exp and pow constantly 1, sqrt the
identity. -/
def cexFns : MathFns :=
  ⟨fun _ => 0, fun _ => 1/1000000, fun _ => 1, fun x => x, fun _ _ => 0, fun _ => 1⟩

/-- The concrete C4 run: one neem tree placed south of Lahore's bounds, no
station data (uniform 200 baseline), wind 3 km/h, winter. -/
def cexParams : SimulationParams :=
  ⟨[⟨0, 31, 74, "neem"⟩], "lahore", [], ⟨3, 0⟩, "winter"⟩

/-- The single tree-effect record of the C4 run. -/
def cexTe : TreeEffect :=
  ⟨0, 31, 74, "neem",
    ⟨"neem", 28.4, 21.7, 5.2, 285, 12, ⟨0.85, 1.0, 0.95⟩, ⟨800, 500, 300⟩⟩,
    28.4 * 0.85, 0.002 * (5.2 / 5), 285, 6, 0.85⟩

/-- The latitude rows of the Lahore baseline grid. -/
def cexLats : List ℚ := frange 31.35 31.65 (100 / 111320)

/-- The per-cell influence of the C4 tree — the same at every grid cell of
the run, depending only on the stability class. -/
def cexInfluence (st : Stability) : ℚ :=
  28.4 * 0.85 * 1000 / (2 * ratPi * (3 / 3.6) * ((coefficients st).ay + 1)) * 1 * 1 * 0.001

/-- The constant projected pm25 of the C4 run, by stability class. -/
def cexPm (st : Stability) : ℚ :=
  max (200 * (1 - min (cexInfluence st / 200) 0.6)) 10

/-- The constant attached reduction of the C4 run, by stability class. -/
def cexRed (st : Stability) : ℚ :=
  (1 - (1 - min (cexInfluence st / 200) 0.6)) * 100

/-- Every value the JS grid loop takes lies between its start and stop. -/
lemma frange_mem_bounds {s e st : ℚ} (hst : 0 < st) :
    ∀ x ∈ frange s e st, s ≤ x ∧ x ≤ e := by
  intro x hx
  unfold frange at hx
  by_cases hse : s ≤ e
  · rw [if_pos ⟨hst, hse⟩] at hx
    rcases List.mem_map.mp hx with ⟨k, hk, rfl⟩
    rw [List.mem_range] at hk
    have hq0 : (0 : ℚ) ≤ (e - s) / st := by
      apply div_nonneg (by linarith) (le_of_lt hst)
    have hfl : (((e - s) / st).floor : ℚ) = ((⌊(e - s) / st⌋ : ℤ) : ℚ) := rfl
    have hfl0 : (0 : ℤ) ≤ ((e - s) / st).floor := by
      show (0 : ℤ) ≤ ⌊(e - s) / st⌋
      exact Int.floor_nonneg.mpr hq0
    have hk' : (k : ℚ) ≤ (e - s) / st := by
      have h1 : (k : ℤ) ≤ ((e - s) / st).floor := by
        have h2 : k ≤ ((e - s) / st).floor.toNat := Nat.lt_succ_iff.mp hk
        omega
      have h3 : ((k : ℤ) : ℚ) ≤ (((e - s) / st).floor : ℚ) := by exact_mod_cast h1
      calc (k : ℚ) = ((k : ℤ) : ℚ) := by norm_cast
        _ ≤ ((⌊(e - s) / st⌋ : ℤ) : ℚ) := by rw [← hfl]; exact h3
        _ ≤ (e - s) / st := Int.floor_le _
    constructor
    · have : (0 : ℚ) ≤ (k : ℚ) * st := by positivity
      linarith
    · have hmul : (k : ℚ) * st ≤ ((e - s) / st) * st :=
        mul_le_mul_of_nonneg_right hk' (le_of_lt hst)
      rw [div_mul_cancel₀ _ (ne_of_gt hst)] at hmul
      linarith
  · rw [if_neg (fun h => hse h.2)] at hx
    exact absurd hx (List.not_mem_nil x)

/-- The JS grid loop runs at least once when the range is nonempty. -/
lemma frange_length_pos {s e st : ℚ} (hst : 0 < st) (hse : s ≤ e) :
    0 < (frange s e st).length := by
  unfold frange
  rw [if_pos ⟨hst, hse⟩, List.length_map, List.length_range]
  exact Nat.succ_pos _

/-- Flattening singleton rows recovers the mapped list. -/
lemma flatten_map_singleton {α β : Type} (f : α → β) (l : List α) :
    (l.map fun x => [f x]).flatten = l.map f := by
  induction l with
  | nil => rfl
  | cons a l ih => simp [ih]

/-- Summing a constant over a list multiplies it by the length. -/
lemma sum_map_const {α : Type} (l : List α) (c : ℚ) :
    (l.map fun _ => c).sum = c * l.length := by
  induction l with
  | nil => simp
  | cons a l ih => simp [ih]; ring

unseal Rat.add Rat.sub Rat.mul Rat.inv Rat.ofScientific in
/-- The C4 baseline field: with no stations every cell interpolates to the
conservative default 200, and the tiny constant cosine collapses the
longitude loop to the single column at the west bound. -/
lemma cexBaseline :
    calculateBaselineField cexFns "lahore" []
      = cexLats.map fun lat => [⟨lat, 74.15, 200, 280, none⟩] := by
  unfold calculateBaselineField cexLats
  simp only []
  rw [show getCityBounds "lahore" = ⟨31.65, 31.35, 74.55, 74.15⟩ from rfl]
  simp only [show frange 74.15 74.55
      ((100 : ℚ) / (111320 * cexFns.cos ((31.65 : ℚ) * ratPi / 180))) = [74.15] from by decide]
  apply List.map_congr_left
  intro lat _
  simp only [List.map_cons, List.map_nil]
  have hinterp : interpolateAQI cexFns lat 74.15 [] = ⟨200, 200, none⟩ := rfl
  rw [hinterp]
  norm_num

/-- At every cell of the C4 grid the tree influence takes the far-field
branch with a downwind distance under 1 m (so the guarded `x` is 1) and unit
`exp` factors, giving a constant value per stability class. -/
lemma cex_influence (st : Stability) (lat : ℚ)
    (h1 : 31.35 ≤ lat) (h2 : lat ≤ 31.65) :
    calculateTreeInfluence cexFns ⟨lat, 74.15, 200, 280, none⟩ cexTe
        3 (windRadOf ⟨3, 0⟩) st
      = cexInfluence st := by
  have hcos : ∀ x, cexFns.cos x = 1/1000000 := fun _ => rfl
  have hsin : ∀ x, cexFns.sin x = 0 := fun _ => rfl
  have hexp : ∀ x, cexFns.exp x = 1 := fun _ => rfl
  have hsqrt : ∀ x, cexFns.sqrt x = x := fun _ => rfl
  have hpow : ∀ x, cexFns.powNegHalf x = 1 := fun _ => rfl
  have hdx : treeCellDx cexFns ⟨lat, 74.15, 200, 280, none⟩ cexTe
      = (74.15 - 74) * 111320 * (1/1000000) := by
    unfold treeCellDx
    rw [hcos]
    norm_num [cexTe]
  have hdy : treeCellDy ⟨lat, 74.15, 200, 280, none⟩ cexTe = (lat - 31) * 111320 := by
    unfold treeCellDy
    norm_num [cexTe]
  have hdylo : (38962 : ℚ) ≤ treeCellDy ⟨lat, 74.15, 200, 280, none⟩ cexTe := by
    rw [hdy]
    nlinarith
  have hdyhi : treeCellDy ⟨lat, 74.15, 200, 280, none⟩ cexTe ≤ 72358 := by
    rw [hdy]
    nlinarith
  have hdist : treeCellDistance cexFns ⟨lat, 74.15, 200, 280, none⟩ cexTe
      = treeCellDx cexFns ⟨lat, 74.15, 200, 280, none⟩ cexTe *
          treeCellDx cexFns ⟨lat, 74.15, 200, 280, none⟩ cexTe +
        treeCellDy ⟨lat, 74.15, 200, 280, none⟩ cexTe *
          treeCellDy ⟨lat, 74.15, 200, 280, none⟩ cexTe := by
    unfold treeCellDistance
    rw [hsqrt]
  have hdw : downwindDist cexFns ⟨lat, 74.15, 200, 280, none⟩ cexTe (windRadOf ⟨3, 0⟩)
      = treeCellDy ⟨lat, 74.15, 200, 280, none⟩ cexTe * (1/1000000) := by
    unfold downwindDist
    rw [hsin, hcos]
    ring
  have hnotcan : ¬(treeCellDistance cexFns ⟨lat, 74.15, 200, 280, none⟩ cexTe
      ≤ cexTe.effectiveRadius) := by
    rw [hdist, hdx]
    push_neg
    show (6 : ℚ) < _
    nlinarith [hdylo]
  have hdwpos : 0 ≤ downwindDist cexFns ⟨lat, 74.15, 200, 280, none⟩ cexTe (windRadOf ⟨3, 0⟩) := by
    rw [hdw]
    nlinarith [hdylo]
  have hdwle : downwindDist cexFns ⟨lat, 74.15, 200, 280, none⟩ cexTe (windRadOf ⟨3, 0⟩) ≤ 1 := by
    rw [hdw]
    nlinarith [hdyhi]
  have hsigma : (getDispersionCoefficients cexFns st
      (downwindDist cexFns ⟨lat, 74.15, 200, 280, none⟩ cexTe (windRadOf ⟨3, 0⟩))).1
      = (coefficients st).ay := by
    unfold getDispersionCoefficients dispersionX
    simp only [hpow]
    rw [max_eq_right hdwle]
    ring
  unfold calculateTreeInfluence
  simp only []
  rw [if_neg hnotcan, if_neg (not_lt.mpr hdwpos), hsigma, hexp, hexp]
  unfold cexInfluence
  show cexTe.baseRemoval * 1000 / (2 * ratPi * (3 / 3.6) * ((coefficients st).ay + 1))
      * 1 * 1 * 0.001 = _
  norm_num [cexTe]

/-- Projecting a C4 grid cell: the single tree contributes the constant
influence, yielding a constant projected pm25 and reduction. -/
lemma cex_projectCell (st : Stability) (lat : ℚ)
    (h1 : 31.35 ≤ lat) (h2 : lat ≤ 31.65) :
    projectCell cexFns 3 (windRadOf ⟨3, 0⟩) st [cexTe] ⟨lat, 74.15, 200, 280, none⟩
      = ⟨lat, 74.15, cexPm st, cexPm st * 1.4, some (cexRed st)⟩ := by
  unfold projectCell
  have hsum : (List.map (fun tree =>
      calculateTreeInfluence cexFns ⟨lat, 74.15, 200, 280, none⟩ tree 3 (windRadOf ⟨3, 0⟩) st)
      [cexTe]).sum = cexInfluence st := by
    rw [List.map_cons, List.map_nil, List.sum_cons, List.sum_nil, add_zero,
      cex_influence st lat h1 h2]
  rw [hsum]
  rfl

unseal Rat.add Rat.sub Rat.mul Rat.inv Rat.ofScientific in
/-- The C4 dispersion stage: every row of the projected field is the single
constant cell determined by the stability class of the run's phase. -/
lemma cex_dispersion (isDay : Bool) :
    applyDispersionModel cexFns isDay
        (cexLats.map fun lat => [⟨lat, 74.15, 200, 280, none⟩]) [cexTe] ⟨3, 0⟩
      = cexLats.map fun lat =>
          [⟨lat, 74.15, cexPm (getStabilityClass isDay 3),
            cexPm (getStabilityClass isDay 3) * 1.4,
            some (cexRed (getStabilityClass isDay 3))⟩] := by
  unfold applyDispersionModel
  simp only [show effectiveWindSpeed ((⟨3, 0⟩ : WindData)).speed = 3 from by decide,
    show windRadOf (⟨3, 0⟩ : WindData) = windRadOf ⟨3, 0⟩ from rfl]
  rw [List.map_map]
  apply List.map_congr_left
  intro lat hlat
  have hb := frange_mem_bounds (by norm_num) lat hlat
  simp only [Function.comp, List.map_cons, List.map_nil]
  rw [cex_projectCell (getStabilityClass isDay 3) lat hb.1 hb.2]

/-- The summary sums of the C4 run: constant cells collapse to products with
the row count. -/
lemma cex_sums (isDay : Bool) :
    summarySums (cexLats.map fun lat => [⟨lat, 74.15, 200, 280, none⟩])
        (cexLats.map fun lat =>
          [⟨lat, 74.15, cexPm (getStabilityClass isDay 3),
            cexPm (getStabilityClass isDay 3) * 1.4,
            some (cexRed (getStabilityClass isDay 3))⟩])
      = ((200 : ℚ) * (cexLats.length : ℚ),
          cexPm (getStabilityClass isDay 3) * (cexLats.length : ℚ),
          cexLats.length) := by
  unfold summarySums
  rw [flatten_map_singleton, flatten_map_singleton, List.map_map, List.map_map,
    List.length_map]
  have h1 : cexLats.map
      ((fun c : GridCell => c.pm25) ∘ fun lat => (⟨lat, 74.15, 200, 280, none⟩ : GridCell))
      = cexLats.map fun _ => (200 : ℚ) :=
    List.map_congr_left fun _ _ => rfl
  have h2 : cexLats.map
      ((fun c : GridCell => c.pm25) ∘ fun lat =>
        (⟨lat, 74.15, cexPm (getStabilityClass isDay 3),
          cexPm (getStabilityClass isDay 3) * 1.4,
          some (cexRed (getStabilityClass isDay 3))⟩ : GridCell))
      = cexLats.map fun _ => cexPm (getStabilityClass isDay 3) :=
    List.map_congr_left fun _ _ => rfl
  rw [h1, h2, sum_map_const, sum_map_const]

/-- The grid of the C4 run is nonempty. -/
lemma cexLats_length_ne_zero : ((cexLats.length : ℚ)) ≠ 0 := by
  have h : 0 < cexLats.length := by
    unfold cexLats
    exact frange_length_pos (by norm_num) (by norm_num)
  exact_mod_cast Nat.pos_iff_ne_zero.mp h

unseal Rat.add Rat.sub Rat.mul Rat.inv Rat.ofScientific in
/-- The reported reduction percentage of the C4 run, as a closed function of
the stability class its day/night phase selects. -/
lemma cex_percentage (isDay : Bool) :
    (runSimulation cexFns isDay cexParams).summary.reductionPercentage
      = jsRound ((200 - cexPm (getStabilityClass isDay 3)) / 200 * 100 * 10) / 10 := by
  have heff : calculateTreeEffects cexParams.trees cexParams.season = [cexTe] := by decide
  unfold runSimulation
  simp only []
  rw [show cexParams.city = "lahore" from rfl, show cexParams.stationData = [] from rfl,
    show cexParams.windData = (⟨3, 0⟩ : WindData) from rfl, heff, cexBaseline,
    cex_dispersion isDay]
  unfold calculateSummaryStats
  simp only []
  rw [cex_sums isDay]
  simp only []
  rw [mul_div_cancel_right₀ (200 : ℚ) cexLats_length_ne_zero,
    mul_div_cancel_right₀ (cexPm (getStabilityClass isDay 3)) cexLats_length_ne_zero]

unseal Rat.add Rat.sub Rat.mul Rat.inv Rat.ofScientific in
/-- C4 counterexample: the same concrete inputs give summary reduction
percentage 2.0 when the wall clock reads daytime (stability class B at
3 km/h) and 2.2 at night (class E): `runSimulation` is not a function of its
explicit inputs alone, so two runs with identical inputs need not agree
bit-for-bit. -/
theorem C4_counterexample :
    (runSimulation cexFns true cexParams).summary
      ≠ (runSimulation cexFns false cexParams).summary := by
  intro heq
  have h := congrArg Summary.reductionPercentage heq
  rw [cex_percentage true, cex_percentage false] at h
  revert h
  decide

end AqiTree
